import Mathlib

/-!
Shallow embedding of the CASE (Certificate Authenticated Session Establishment)
handshake core, `src/protocols/secure_channel/CASESession.cpp`.

Modelling conventions:
* Byte buffers are `List Nat` (each entry one byte value).
* `CHIP_ERROR` is `Option CHIPError` for side-effecting member functions
  (`none` = `CHIP_NO_ERROR`) and `Except CHIPError α` for value-producing ones.
* External collaborators (DRBG, ECDH, HKDF, AES-CCM, certificate validation,
  fabric table, exchange `SendMessage`) are nondeterministic for the session
  core; their outcomes are supplied through an `Env` record of oracles, one
  field per call site (or per external function), so every theorem quantifies
  over all possible collaborator behaviour.
* The TLV reader plumbing is an out-of-scope collaborator; a message body is
  modelled as the list of TLV elements inside the already-entered anonymous
  outer structure, and the reader operations (`Next`, `GetByteView`,
  `GetBytes`, `Get`, `GetLength`) are modelled over that list with the
  reader's documented error codes.
* Observable side effects (status reports transmitted, messages sent on the
  exchange, delegate callbacks) are accumulated in an `Effects` record; each
  modelled function returns the delta of effects it produced.
* The running transcript hash `mCommissioningHash` is modelled as the list of
  chunks passed to `AddData`, in order; SHA-256 itself is an external
  primitive, modelled by an executable 32-byte stand-in `sha256Digest`.
-/

abbrev Bytes := List Nat

/-- Error kinds of `CHIP_ERROR` used by the CASE session core. -/
inductive CHIPError where
  | invalidArgument
  | noMemory
  | invalidMessageType
  | incorrectState
  | keyNotFound
  | invalidCaseParameter
  | unexpectedTlvElement
  | invalidTlvTag
  | invalidTlvElement
  | wrongTlvType
  | endOfTlv
  | invalidIntegerValue
  | versionMismatch
  | internal
  | timeout
  | messageIncomplete
  | bufferTooSmall
  | noSharedTrustedRoot
  | invalidSignature
  | other (n : Nat)
  deriving DecidableEq

/-- Secure-channel message types dispatched by `OnMessageReceived`. -/
inductive MsgType where
  | sigma1
  | sigma2
  | sigma2Resume
  | sigma3
  | statusReport
  | other (n : Nat)
  deriving DecidableEq

/-- Values of the `mState` member of `CASESession`. -/
inductive CASEState where
  | kInitialized
  | kSentSigma1
  | kSentSigma2
  | kSentSigma3
  | kSentSigma2Resume
  deriving DecidableEq

/-- Status-report protocol code `kProtocolCodeSuccess`. -/
def kProtocolCodeSuccess : Nat := 0
/-- Status-report protocol code `kProtocolCodeInvalidParam` (0x0002). -/
def kProtocolCodeInvalidParam : Nat := 2
/-- Status-report protocol code `kProtocolCodeNoSharedRoot` (0x0003). -/
def kProtocolCodeNoSharedRoot : Nat := 3

/-- Version byte `kCASESessionVersion` of the serialized form. -/
def kCASESessionVersion : Nat := 1

/-- Capacity in bytes of `mSharedSecret` (P256 ECDH output buffer). -/
def kSharedSecretCapacity : Nat := 32

/-- Value of `sizeof(mSharedSecret.Capacity())`, the size of a `size_t`
value on the usual LP64 build (the bug in `FromSerializable` zeroizes this
many bytes instead of the capacity; any value below the capacity exhibits
the same behaviour). -/
def kSizeofSizeT : Nat := 8

/-- Bytes of `kKDFSEInfo`, copied from the source constant. -/
def kKDFSEInfo : Bytes := [0x53, 0x65, 0x73, 0x73, 0x69, 0x6f, 0x6e, 0x4b, 0x65, 0x79, 0x73]

/-- Observable side effects emitted by a modelled call: status reports
transmitted to the peer (protocol codes, in order), messages sent on the
exchange (with their on-wire bytes), delegate error notifications, and
counts of `OnSessionEstablished` / `OnSessionEstablishmentStarted` calls. -/
structure Effects where
  statusReports : List Nat
  messagesSent : List (MsgType × Bytes)
  delegateErrors : List CHIPError
  establishedCalls : Nat
  startedCalls : Nat
  deriving DecidableEq

def Effects.empty : Effects := ⟨[], [], [], 0, 0⟩

def Effects.app (a b : Effects) : Effects :=
  ⟨a.statusReports ++ b.statusReports, a.messagesSent ++ b.messagesSent,
   a.delegateErrors ++ b.delegateErrors, a.establishedCalls + b.establishedCalls,
   a.startedCalls + b.startedCalls⟩

/-- Modelled from the spec: `SendStatusReport` (defined outside src/)
transmits a Status Report with the given protocol code to the peer. -/
def statusEff (code : Nat) : Effects := ⟨[code], [], [], 0, 0⟩

def msgEff (t : MsgType) (b : Bytes) : Effects := ⟨[], [(t, b)], [], 0, 0⟩

def startedEff : Effects := ⟨[], [], [], 0, 1⟩

def establishedEff : Effects := ⟨[], [], [], 1, 0⟩

def delegateErrEff (e : CHIPError) : Effects := ⟨[], [], [e], 0, 0⟩

/-- Executable stand-in for the external SHA-256 primitive: 32 bytes
computed from the list of `AddData` chunks. Claims never depend on the
digest value, only on which chunks were mixed in and when the digest is
frozen. -/
def sha256Digest (chunks : List Bytes) : Bytes :=
  ((chunks.flatMap (fun c => (c.length % 256) :: c.map (· % 256))) ++ List.replicate 32 0).take 32

/-- Fixed-capacity secret buffer (models `mSharedSecret`): the full backing
storage (`bytes`, always the capacity in length for well-formed states) and
the current `Length()`. -/
structure SecretBuf where
  bytes : Bytes
  len : Nat
  deriving DecidableEq

/-- Overwrite the front of a fixed buffer with new bytes (memcpy at offset 0). -/
def overwriteBytes (old new : Bytes) : Bytes := new ++ old.drop new.length

/-- Zero the first `n` bytes of a buffer (memset of `n` bytes). -/
def zeroFirst (n : Nat) (b : Bytes) : Bytes :=
  List.replicate (min n b.length) 0 ++ b.drop n

/-- Write an ECDH shared secret into the capacity-bounded buffer. -/
def SecretBuf.write (sb : SecretBuf) (b : Bytes) : SecretBuf :=
  ⟨overwriteBytes sb.bytes (b.take kSharedSecretCapacity), min b.length kSharedSecretCapacity⟩

/-- Value of one TLV element, at the granularity the session core reads:
byte strings, unsigned integers read as `uint16`, and nested structures
(the MRP-parameters struct, skipped by the core). -/
inductive TLVVal where
  | bytes (b : Bytes)
  | u16 (n : Nat)
  | tstruct
  deriving DecidableEq

/-- One context-tagged TLV element inside a message structure. -/
structure TLVElem where
  tag : Nat
  val : TLVVal
  deriving DecidableEq

/-- Model of `TLVReader::GetLength`: the length of a string element, 0 for
non-string elements. -/
def TLVElem.elemLength (e : TLVElem) : Nat :=
  match e.val with
  | .bytes b => b.length
  | _ => 0

/-- Model of `TLVReader::Next()` on the remaining elements of the entered
structure: `CHIP_END_OF_TLV` when exhausted. -/
def tlvNextRaw (l : List TLVElem) : Except CHIPError (TLVElem × List TLVElem) :=
  match l with
  | [] => .error .endOfTlv
  | e :: r => .ok (e, r)

/-- Model of `TLVReader::Next(ContextTag(t))`: advances and fails with
`CHIP_ERROR_UNEXPECTED_TLV_ELEMENT` when the tag does not match. -/
def tlvNextExpectTag (t : Nat) (l : List TLVElem) : Except CHIPError (TLVElem × List TLVElem) :=
  match l with
  | [] => .error .endOfTlv
  | e :: r => if e.tag = t then .ok (e, r) else .error .unexpectedTlvElement

/-- Model of the `Next(); VerifyOrExit(TagNumFromTag(GetTag()) == ++seq,
CHIP_ERROR_INVALID_TLV_TAG)` pattern used by the inline Sigma2/Sigma3
readers. -/
def tlvNextSeq (expected : Nat) (l : List TLVElem) : Except CHIPError (TLVElem × List TLVElem) :=
  match l with
  | [] => .error .endOfTlv
  | e :: r => if e.tag = expected then .ok (e, r) else .error .invalidTlvTag

/-- Model of `TLVReader::GetByteView` / `Get(ByteSpan &)`:
`CHIP_ERROR_WRONG_TLV_TYPE` on a non-string element. -/
def tlvGetByteView (e : TLVElem) : Except CHIPError Bytes :=
  match e.val with
  | .bytes b => .ok b
  | _ => .error .wrongTlvType

/-- Model of `TLVReader::GetBytes(buf, maxLen)`: wrong type or an element
longer than the destination buffer fails. -/
def tlvGetBytes (maxLen : Nat) (e : TLVElem) : Except CHIPError Bytes :=
  match e.val with
  | .bytes b => if b.length > maxLen then .error .bufferTooSmall else .ok b
  | _ => .error .wrongTlvType

/-- Model of `TLVReader::Get(uint16_t &)`. -/
def tlvGetU16 (e : TLVElem) : Except CHIPError Nat :=
  match e.val with
  | .u16 n => if n < 65536 then .ok n else .error .invalidIntegerValue
  | _ => .error .wrongTlvType

instance {ε α : Type} [DecidableEq ε] [DecidableEq α] : DecidableEq (Except ε α) := fun x y =>
  match x, y with
  | .ok a, .ok b =>
    if h : a = b then .isTrue (congrArg Except.ok h)
    else .isFalse (fun hc => h (Except.ok.inj hc))
  | .ok _, .error _ => .isFalse (fun hc => Except.noConfusion hc)
  | .error _, .ok _ => .isFalse (fun hc => Except.noConfusion hc)
  | .error a, .error b =>
    if h : a = b then .isTrue (congrArg Except.error h)
    else .isFalse (fun hc => h (Except.error.inj hc))

/-- Modelled view of `FabricInfo`: outcomes of the accessors the session
core calls on its fabric handle. -/
structure FabricInfoM where
  icacRes : Except CHIPError Bytes
  nocRes : Except CHIPError Bytes
  trustedRootEmpty : Bool
  hasOpKey : Bool
  deriving DecidableEq

/-- Session context: the `CASESession` members the claims depend on.
`transcript` is the running hash state (chunks passed to `AddData`). -/
structure Ctx where
  mState : CASEState
  mCASESessionEstablished : Bool
  mExchangeCtxt : Option Nat
  transcript : List Bytes
  mMessageDigest : Bytes
  mSharedSecret : SecretBuf
  mResumptionId : Bytes
  mIPK : Bytes
  mInitiatorRandom : Bytes
  mRemotePubKey : Bytes
  localSessionId : Nat
  peerSessionId : Nat
  peerNodeId : Nat
  mFabricInfo : Option FabricInfoM
  mFabricsTablePresent : Bool
  deriving DecidableEq

/-- Result of a modelled side-effecting member function: the returned
`CHIP_ERROR`, the updated session, and the effects delta it emitted. -/
structure HOut where
  err : Option CHIPError
  s : Ctx
  eff : Effects
  deriving DecidableEq

/-- Oracle record for all external collaborator calls: one field per
external function (or call site where the source calls the same external
function with unrelated inputs). -/
structure Env where
  drbgInitiatorRandom : Except CHIPError Bytes
  drbgResponderRandom : Except CHIPError Bytes
  drbgResumptionIdS2 : Except CHIPError Bytes
  drbgResumptionIdS2R : Except CHIPError Bytes
  ephInit : Option CHIPError
  ecdh : Except CHIPError Bytes
  hkdf : Option CHIPError
  aesEncrypt : Option CHIPError
  aesDecrypt2 : Option CHIPError
  aesDecrypt3 : Option CHIPError
  resumeMICValid : Bytes → Bytes → Bytes → Option CHIPError
  genResumeMIC : Bytes → Bytes → Except CHIPError Bytes
  findDestFabric : Bytes → Bytes → Option Nat
  findFabricWithIndex : Nat → Option FabricInfoM
  verifyCreds : Bytes → Bytes → Except CHIPError Nat
  sign : Except CHIPError Bytes
  sigValid : Bytes → Option CHIPError
  send : MsgType → Option CHIPError
  allocOk : Bool
  genDestId : Option CHIPError
  ipkList : Bytes
  sigma1Bytes : Bytes
  sigma2Bytes : Bytes
  sigma2ResumeBytes : Bytes
  sigma3Bytes : Bytes
  tbe2 : List TLVElem
  tbe3 : List TLVElem

/-- Result of `CASESession::ParseSigma1`'s output parameters. -/
structure Sigma1Parsed where
  initiatorRandom : Bytes
  initiatorSessionId : Nat
  destinationId : Bytes
  initiatorEphPubKey : Bytes
  resumptionRequested : Bool
  resumptionId : Bytes
  initiatorResumeMIC : Bytes
  deriving DecidableEq

/-- Final step of `ParseSigma1`: the `err == CHIP_END_OF_TLV` fix-up,
`ReturnErrorOnFailure(err)`, `ExitContainer`, and the both-or-neither check
on the optional tag pair (6, 7). -/
def parseSigma1Finish (rand : Bytes) (sid : Nat) (dest pub : Bytes)
    (found6 : Bool) (rid : Bytes) (found7 : Bool) (mic : Bytes)
    (cur : Except CHIPError (TLVElem × List TLVElem)) : Except CHIPError Sigma1Parsed :=
  let errTail : Option CHIPError :=
    match cur with
    | .ok _ => none
    | .error .endOfTlv => none
    | .error x => some x
  match errTail with
  | some x => .error x
  | none =>
    if found6 && found7 then .ok ⟨rand, sid, dest, pub, true, rid, mic⟩
    else if !found6 && !found7 then .ok ⟨rand, sid, dest, pub, false, [], []⟩
    else .error .unexpectedTlvElement

/-- Optional-tag-7 step of `ParseSigma1`. -/
def parseSigma1Tag7 (rand : Bytes) (sid : Nat) (dest pub : Bytes)
    (found6 : Bool) (rid : Bytes)
    (cur : Except CHIPError (TLVElem × List TLVElem)) : Except CHIPError Sigma1Parsed :=
  match cur with
  | .ok (e, r) =>
    if e.tag = 7 then
      match tlvGetByteView e with
      | .error x => .error x
      | .ok mic =>
        if mic.length ≠ 16 then .error .invalidCaseParameter
        else parseSigma1Finish rand sid dest pub found6 rid true mic (tlvNextRaw r)
    else parseSigma1Finish rand sid dest pub found6 rid false [] (.ok (e, r))
  | .error x => parseSigma1Finish rand sid dest pub found6 rid false [] (.error x)

/-- Optional-tag-6 step of `ParseSigma1`. -/
def parseSigma1Tag6 (rand : Bytes) (sid : Nat) (dest pub : Bytes)
    (cur : Except CHIPError (TLVElem × List TLVElem)) : Except CHIPError Sigma1Parsed :=
  match cur with
  | .ok (e, r) =>
    if e.tag = 6 then
      match tlvGetByteView e with
      | .error x => .error x
      | .ok rid =>
        if rid.length ≠ 16 then .error .invalidCaseParameter
        else parseSigma1Tag7 rand sid dest pub true rid (tlvNextRaw r)
    else parseSigma1Tag7 rand sid dest pub false [] (.ok (e, r))
  | .error x => parseSigma1Tag7 rand sid dest pub false [] (.error x)

/-- Model of `CASESession::ParseSigma1`: the four mandatory fields with their
size checks, the optionally-skipped MRP-parameters element (tag 5), and the
optional resumption pair (tags 6 and 7) with the both-or-neither check.
`elems` is the element list of the anonymous outer structure. -/
def ParseSigma1 (elems : List TLVElem) : Except CHIPError Sigma1Parsed :=
  match tlvNextExpectTag 1 elems with
  | .error e => .error e
  | .ok (e1, r1) =>
  match tlvGetByteView e1 with
  | .error e => .error e
  | .ok rand =>
  if rand.length ≠ 32 then .error .invalidCaseParameter else
  match tlvNextExpectTag 2 r1 with
  | .error e => .error e
  | .ok (e2, r2) =>
  match tlvGetU16 e2 with
  | .error e => .error e
  | .ok sid =>
  match tlvNextExpectTag 3 r2 with
  | .error e => .error e
  | .ok (e3, r3) =>
  match tlvGetByteView e3 with
  | .error e => .error e
  | .ok dest =>
  if dest.length ≠ 32 then .error .invalidCaseParameter else
  match tlvNextExpectTag 4 r3 with
  | .error e => .error e
  | .ok (e4, r4) =>
  match tlvGetByteView e4 with
  | .error e => .error e
  | .ok pub =>
  if pub.length ≠ 65 then .error .invalidCaseParameter else
  let cur0 := tlvNextRaw r4
  let cur1 :=
    match cur0 with
    | .ok (e, r) => if e.tag = 5 then tlvNextRaw r else .ok (e, r)
    | .error x => .error x
  parseSigma1Tag6 rand sid dest pub cur1

/-- Model of `CASESession::Clear` (called from `OnMessageReceived`'s error
exit and from `Init`): the transcript hash is cleared, the established flag
reset, the state set back to `kInitialized`, and the exchange closed. -/
def clearSession (s : Ctx) : Ctx :=
  { s with transcript := [], mCASESessionEstablished := false,
           mState := CASEState.kInitialized, mExchangeCtxt := none }

/-- Model of `CASESession::ValidateSigmaResumeMIC`: the MIC size check from
the source, then the resume-key HKDF and AEAD check whose outcome the
environment supplies (it depends on the shared secret, which the model
treats as collaborator-held key material). -/
def ValidateSigmaResumeMICM (env : Env) (mic rand rid : Bytes) : Option CHIPError :=
  if mic.length ≠ 16 then some .bufferTooSmall
  else env.resumeMICValid mic rand rid

/-- Model of `CASESession::SendSigma2Resume`: allocates the message, draws a
fresh resumption id, computes the Sigma2-resume MIC, moves to
`kSentSigma2Resume`, and sends the message. The transcript hash is never
touched. -/
def SendSigma2Resume (env : Env) (initiatorRandom : Bytes) (s : Ctx) : HOut :=
  if env.allocOk = false then ⟨some .noMemory, s, Effects.empty⟩ else
  match env.drbgResumptionIdS2R with
  | .error e => ⟨some e, s, Effects.empty⟩
  | .ok rid =>
  let s1 := { s with mResumptionId := rid.take 16 }
  match env.genResumeMIC initiatorRandom s1.mResumptionId with
  | .error e => ⟨some e, s1, Effects.empty⟩
  | .ok _mic =>
  let s2 := { s1 with mState := CASEState.kSentSigma2Resume }
  match env.send MsgType.sigma2Resume with
  | some e => ⟨some e, s2, Effects.empty⟩
  | none => ⟨none, s2, msgEff MsgType.sigma2Resume env.sigma2ResumeBytes⟩

/-- Model of `CASESession::SendSigma2`: fabric accessors, fresh responder
random, ephemeral key, ECDH shared secret, S2K HKDF, TBS signature, fresh
resumption id, TBE2 encryption, then the wire message is appended to the
transcript hash, the state moves to `kSentSigma2`, and the message is sent.
Allocation failures are collapsed into the single `allocOk` oracle. -/
def SendSigma2 (env : Env) (s : Ctx) : HOut :=
  match s.mFabricInfo with
  | none => ⟨some .incorrectState, s, Effects.empty⟩
  | some fi =>
  match fi.icacRes with
  | .error e => ⟨some e, s, Effects.empty⟩
  | .ok _icac =>
  match fi.nocRes with
  | .error e => ⟨some e, s, Effects.empty⟩
  | .ok _noc =>
  if fi.trustedRootEmpty then ⟨some .internal, s, Effects.empty⟩ else
  match env.drbgResponderRandom with
  | .error e => ⟨some e, s, Effects.empty⟩
  | .ok _rand =>
  match env.ephInit with
  | some e => ⟨some e, s, Effects.empty⟩
  | none =>
  match env.ecdh with
  | .error e => ⟨some e, s, Effects.empty⟩
  | .ok secret =>
  let s1 := { s with mSharedSecret := SecretBuf.write s.mSharedSecret secret }
  match env.hkdf with
  | some e => ⟨some e, s1, Effects.empty⟩
  | none =>
  if env.allocOk = false then ⟨some .noMemory, s1, Effects.empty⟩ else
  if fi.hasOpKey = false then ⟨some .incorrectState, s1, Effects.empty⟩ else
  match env.sign with
  | .error e => ⟨some e, s1, Effects.empty⟩
  | .ok _sig =>
  match env.drbgResumptionIdS2 with
  | .error e => ⟨some e, s1, Effects.empty⟩
  | .ok rid =>
  let s2 := { s1 with mResumptionId := rid.take 16 }
  match env.aesEncrypt with
  | some e => ⟨some e, s2, Effects.empty⟩
  | none =>
  let s3 := { s2 with transcript := s2.transcript ++ [env.sigma2Bytes],
                      mState := CASEState.kSentSigma2 }
  match env.send MsgType.sigma2 with
  | some e => ⟨some e, s3, Effects.empty⟩
  | none => ⟨none, s3, msgEff MsgType.sigma2 env.sigma2Bytes⟩

/-- Full-handshake continuation of `HandleSigma1` (the code the resumption
guard falls through to): copy the IPK, look up the fabric matching the
destination id (`CHIP_ERROR_KEY_NOT_FOUND` when none), store the initiator
ephemeral key, send Sigma2, and notify the delegate that establishment
started. -/
def Sigma1FullPath (env : Env) (p : Sigma1Parsed) (s : Ctx) : HOut :=
  let s1 := { s with mIPK := env.ipkList.take 16 }
  if s1.mFabricsTablePresent = false then ⟨some .incorrectState, s1, Effects.empty⟩ else
  match env.findDestFabric p.destinationId p.initiatorRandom with
  | none => ⟨some .keyNotFound, s1, Effects.empty⟩
  | some idx =>
  match env.findFabricWithIndex idx with
  | none => ⟨some .incorrectState, s1, Effects.empty⟩
  | some fi =>
  let s2 := { s1 with mFabricInfo := some fi, mRemotePubKey := p.initiatorEphPubKey }
  let r2 := SendSigma2 env s2
  match r2.err with
  | some e => ⟨some e, r2.s, r2.eff⟩
  | none => ⟨none, r2.s, Effects.app r2.eff startedEff⟩

/-- Post-parse body of `HandleSigma1`: record the peer session id, then
either take the resumption fast path (only when resumption was requested,
the presented resumption id equals the stored one, and the Resume1MIC
validates) or fall through to the full handshake path. -/
def Sigma1PostParse (env : Env) (p : Sigma1Parsed) (s : Ctx) : HOut :=
  let s1 := { s with peerSessionId := p.initiatorSessionId }
  if p.resumptionRequested = true ∧ p.resumptionId = s1.mResumptionId then
    match ValidateSigmaResumeMICM env p.initiatorResumeMIC p.initiatorRandom p.resumptionId with
    | none =>
      let r := SendSigma2Resume env p.initiatorRandom s1
      match r.err with
      | some e => ⟨some e, r.s, r.eff⟩
      | none => ⟨none, r.s, Effects.app r.eff startedEff⟩
    | some _ => Sigma1FullPath env p s1
  else Sigma1FullPath env p s1

/-- Error exit block of `HandleSigma1`: `CHIP_ERROR_KEY_NOT_FOUND` sends a
`NoSharedRoot` status report, any other error an `InvalidParam` one, and in
both cases the state is reset to `kInitialized`. -/
def sigma1ExitWrap (r : HOut) : HOut :=
  match r.err with
  | none => r
  | some CHIPError.keyNotFound =>
    ⟨some CHIPError.keyNotFound, { r.s with mState := CASEState.kInitialized },
     Effects.app r.eff (statusEff kProtocolCodeNoSharedRoot)⟩
  | some e =>
    ⟨some e, { r.s with mState := CASEState.kInitialized },
     Effects.app r.eff (statusEff kProtocolCodeInvalidParam)⟩

/-- Post-parse body of `HandleSigma1` together with its error exit block. -/
def Sigma1AfterParse (env : Env) (p : Sigma1Parsed) (s : Ctx) : HOut :=
  sigma1ExitWrap (Sigma1PostParse env p s)

/-- Model of `CASESession::HandleSigma1` (and hence
`HandleSigma1_and_SendSigma2`): the inbound message bytes are appended to
the transcript hash first, then the message is parsed and processed.
`msgBytes` are the full on-wire bytes; `toks` their TLV element view. -/
def HandleSigma1 (env : Env) (msgBytes : Bytes) (toks : List TLVElem) (s : Ctx) : HOut :=
  let s0 := { s with transcript := s.transcript ++ [msgBytes] }
  match ParseSigma1 toks with
  | .error e => sigma1ExitWrap ⟨some e, s0, Effects.empty⟩
  | .ok p => Sigma1AfterParse env p s0

/-- Bytes of the current element (`GetBytes` into a buffer sized to
`GetLength()`, so only the type can fail). -/
def tlvElemBytes (e : TLVElem) : Except CHIPError Bytes :=
  match e.val with
  | .bytes b => .ok b
  | _ => .error .wrongTlvType

/-- Model of `Next(kTLVType_ByteString, ContextTag(t))`: tag check first
(`CHIP_ERROR_UNEXPECTED_TLV_ELEMENT`), then type check
(`CHIP_ERROR_WRONG_TLV_TYPE`). -/
def tlvNextBytesTag (t : Nat) (l : List TLVElem) : Except CHIPError (Bytes × TLVElem × List TLVElem) :=
  match tlvNextExpectTag t l with
  | .error e => .error e
  | .ok (e, r) =>
    match e.val with
    | .bytes b => .ok (b, e, r)
    | _ => .error .wrongTlvType

/-- Optional-ICAC step shared by the TBE2/TBE3 readers: when the element
after the NOC carries tag 2 it must be a byte string and is followed by
`Next(kTLVType_ByteString, ContextTag(kTag_TBEData_Signature))`; otherwise
the element itself is left as the signature candidate. -/
def tbeIcacStep (eI : TLVElem) (rI : List TLVElem) : Except CHIPError (Bytes × TLVElem × List TLVElem) :=
  if eI.tag = 2 then
    match eI.val with
    | .bytes icacB =>
      (match tlvNextExpectTag 3 rI with
       | .error e => .error e
       | .ok (eS, rS) =>
         match eS.val with
         | .bytes _ => .ok (icacB, eS, rS)
         | _ => .error .wrongTlvType)
    | _ => .error .wrongTlvType
  else .ok ([], eI, rI)

/-- Error exit block of `HandleSigma2` / `HandleSigma2Resume` /
`HandleSigma3`: any error sends an `InvalidParam` status report (these exits
do not change `mState`; `OnMessageReceived`'s exit clears the session). -/
def invalidParamExitWrap (r : HOut) : HOut :=
  match r.err with
  | none => r
  | some e => ⟨some e, r.s, Effects.app r.eff (statusEff kProtocolCodeInvalidParam)⟩

/-- Body of `CASESession::HandleSigma2` before its exit block: read the
responder random, session id and ephemeral key, derive the shared secret
and S2K, append the full message bytes to the transcript hash, decrypt
TBE2, validate the responder identity and signature, and store the new
resumption id. The `buf != nullptr` check is not modelled (packet-buffer
memory layout). -/
def HandleSigma2Body (env : Env) (msgBytes : Bytes) (toks : List TLVElem) (s : Ctx) : HOut :=
  match tlvNextSeq 1 toks with
  | .error e => ⟨some e, s, Effects.empty⟩
  | .ok (e1, r1) =>
  match tlvGetBytes 32 e1 with
  | .error e => ⟨some e, s, Effects.empty⟩
  | .ok _responderRandom =>
  match tlvNextSeq 2 r1 with
  | .error e => ⟨some e, s, Effects.empty⟩
  | .ok (e2, r2) =>
  match tlvGetU16 e2 with
  | .error e => ⟨some e, s, Effects.empty⟩
  | .ok sid =>
  let sA := { s with peerSessionId := sid }
  match tlvNextSeq 3 r2 with
  | .error e => ⟨some e, sA, Effects.empty⟩
  | .ok (e3, r3) =>
  match tlvGetBytes 65 e3 with
  | .error e => ⟨some e, sA, Effects.empty⟩
  | .ok pub =>
  let sB := { sA with mRemotePubKey := pub }
  match env.ecdh with
  | .error e => ⟨some e, sB, Effects.empty⟩
  | .ok secret =>
  let sC := { sB with mSharedSecret := SecretBuf.write sB.mSharedSecret secret }
  match env.hkdf with
  | some e => ⟨some e, sC, Effects.empty⟩
  | none =>
  let sD := { sC with transcript := sC.transcript ++ [msgBytes] }
  match tlvNextSeq 4 r3 with
  | .error e => ⟨some e, sD, Effects.empty⟩
  | .ok (e4, _r4) =>
  if env.allocOk = false then ⟨some .noMemory, sD, Effects.empty⟩ else
  if e4.elemLength ≤ 16 then ⟨some .invalidTlvElement, sD, Effects.empty⟩ else
  match tlvGetBytes e4.elemLength e4 with
  | .error e => ⟨some e, sD, Effects.empty⟩
  | .ok _enc =>
  match env.aesDecrypt2 with
  | some e => ⟨some e, sD, Effects.empty⟩
  | none =>
  match tlvNextBytesTag 1 env.tbe2 with
  | .error e => ⟨some e, sD, Effects.empty⟩
  | .ok (noc, _, rN) =>
  match tlvNextRaw rN with
  | .error e => ⟨some e, sD, Effects.empty⟩
  | .ok (eI, rI) =>
  match tbeIcacStep eI rI with
  | .error e => ⟨some e, sD, Effects.empty⟩
  | .ok (icac, eSig, rSig) =>
  match sD.mFabricInfo with
  | none => ⟨some .incorrectState, sD, Effects.empty⟩
  | some _ =>
  match env.verifyCreds noc icac with
  | .error e => ⟨some e, sD, Effects.empty⟩
  | .ok pid =>
  let sE := { sD with peerNodeId := pid }
  if env.allocOk = false then ⟨some .noMemory, sE, Effects.empty⟩ else
  if eSig.tag ≠ 3 then ⟨some .invalidTlvTag, sE, Effects.empty⟩ else
  if eSig.elemLength > 64 then ⟨some .invalidTlvElement, sE, Effects.empty⟩ else
  match tlvElemBytes eSig with
  | .error e => ⟨some e, sE, Effects.empty⟩
  | .ok sig =>
  match env.sigValid sig with
  | some e => ⟨some e, sE, Effects.empty⟩
  | none =>
  match tlvNextBytesTag 4 rSig with
  | .error e => ⟨some e, sE, Effects.empty⟩
  | .ok (rid, _, _) =>
  if rid.length > 16 then ⟨some .bufferTooSmall, sE, Effects.empty⟩ else
  ⟨none, { sE with mResumptionId := overwriteBytes sE.mResumptionId rid }, Effects.empty⟩

/-- Model of `CASESession::HandleSigma2` with its exit block. -/
def HandleSigma2 (env : Env) (msgBytes : Bytes) (toks : List TLVElem) (s : Ctx) : HOut :=
  invalidParamExitWrap (HandleSigma2Body env msgBytes toks s)

/-- Body of `CASESession::SendSigma3` before its exit block: fabric
accessors, TBS signature, TBE3 encryption with S3K, then the wire message
is appended to the transcript hash, the state moves to `kSentSigma3`, the
message is sent, and after a successful send the transcript hash is
finalized into `mMessageDigest`. -/
def SendSigma3Body (env : Env) (s : Ctx) : HOut :=
  match s.mFabricInfo with
  | none => ⟨some .incorrectState, s, Effects.empty⟩
  | some fi =>
  match fi.icacRes with
  | .error e => ⟨some e, s, Effects.empty⟩
  | .ok _icac =>
  match fi.nocRes with
  | .error e => ⟨some e, s, Effects.empty⟩
  | .ok _noc =>
  if fi.trustedRootEmpty then ⟨some .internal, s, Effects.empty⟩ else
  if env.allocOk = false then ⟨some .noMemory, s, Effects.empty⟩ else
  if fi.hasOpKey = false then ⟨some .incorrectState, s, Effects.empty⟩ else
  match env.sign with
  | .error e => ⟨some e, s, Effects.empty⟩
  | .ok _sig =>
  match env.hkdf with
  | some e => ⟨some e, s, Effects.empty⟩
  | none =>
  match env.aesEncrypt with
  | some e => ⟨some e, s, Effects.empty⟩
  | none =>
  let s1 := { s with transcript := s.transcript ++ [env.sigma3Bytes],
                     mState := CASEState.kSentSigma3 }
  match env.send MsgType.sigma3 with
  | some e => ⟨some e, s1, Effects.empty⟩
  | none =>
    let s2 := { s1 with mMessageDigest := sha256Digest s1.transcript }
    ⟨none, s2, msgEff MsgType.sigma3 env.sigma3Bytes⟩

/-- Error exit block of `SendSigma3`: an `InvalidParam` status report and a
state reset to `kInitialized`. -/
def sigma3SendExitWrap (r : HOut) : HOut :=
  match r.err with
  | none => r
  | some e =>
    ⟨some e, { r.s with mState := CASEState.kInitialized },
     Effects.app r.eff (statusEff kProtocolCodeInvalidParam)⟩

/-- Model of `CASESession::SendSigma3` with its exit block. -/
def SendSigma3 (env : Env) (s : Ctx) : HOut :=
  sigma3SendExitWrap (SendSigma3Body env s)

/-- Model of `CASESession::HandleSigma2_and_SendSigma3`. -/
def HandleSigma2AndSendSigma3 (env : Env) (msgBytes : Bytes) (toks : List TLVElem) (s : Ctx) : HOut :=
  let r := HandleSigma2 env msgBytes toks s
  match r.err with
  | some _ => r
  | none =>
    let r2 := SendSigma3 env r.s
    ⟨r2.err, r2.s, Effects.app r.eff r2.eff⟩

/-- Body of `CASESession::HandleSigma3` before its exit block: read the
encrypted blob, derive S3K, append the full message bytes to the
transcript hash, decrypt TBE3, validate the initiator identity and
signature, finalize the transcript hash into `mMessageDigest`, send a
success status report, mark the session established, forget the exchange,
and notify the delegate. -/
def HandleSigma3Body (env : Env) (msgBytes : Bytes) (toks : List TLVElem) (s : Ctx) : HOut :=
  match tlvNextSeq 1 toks with
  | .error e => ⟨some e, s, Effects.empty⟩
  | .ok (e1, _r1) =>
  if env.allocOk = false then ⟨some .noMemory, s, Effects.empty⟩ else
  if e1.elemLength ≤ 16 then ⟨some .invalidTlvElement, s, Effects.empty⟩ else
  match tlvGetBytes e1.elemLength e1 with
  | .error e => ⟨some e, s, Effects.empty⟩
  | .ok _enc =>
  match env.hkdf with
  | some e => ⟨some e, s, Effects.empty⟩
  | none =>
  let sA := { s with transcript := s.transcript ++ [msgBytes] }
  match env.aesDecrypt3 with
  | some e => ⟨some e, sA, Effects.empty⟩
  | none =>
  match tlvNextBytesTag 1 env.tbe3 with
  | .error e => ⟨some e, sA, Effects.empty⟩
  | .ok (noc, _, rN) =>
  match tlvNextRaw rN with
  | .error e => ⟨some e, sA, Effects.empty⟩
  | .ok (eI, rI) =>
  match tbeIcacStep eI rI with
  | .error e => ⟨some e, sA, Effects.empty⟩
  | .ok (icac, eSig, _rSig) =>
  match sA.mFabricInfo with
  | none => ⟨some .incorrectState, sA, Effects.empty⟩
  | some _ =>
  match env.verifyCreds noc icac with
  | .error e => ⟨some e, sA, Effects.empty⟩
  | .ok pid =>
  let sB := { sA with peerNodeId := pid }
  if env.allocOk = false then ⟨some .noMemory, sB, Effects.empty⟩ else
  if eSig.tag ≠ 3 then ⟨some .invalidTlvTag, sB, Effects.empty⟩ else
  if eSig.elemLength > 64 then ⟨some .invalidTlvElement, sB, Effects.empty⟩ else
  match tlvElemBytes eSig with
  | .error e => ⟨some e, sB, Effects.empty⟩
  | .ok sig =>
  match env.sigValid sig with
  | some e => ⟨some e, sB, Effects.empty⟩
  | none =>
  let sC := { sB with mMessageDigest := sha256Digest sB.transcript }
  let sD := { sC with mCASESessionEstablished := true, mExchangeCtxt := none }
  ⟨none, sD, Effects.app (statusEff kProtocolCodeSuccess) establishedEff⟩

/-- Model of `CASESession::HandleSigma3` with its exit block. -/
def HandleSigma3 (env : Env) (msgBytes : Bytes) (toks : List TLVElem) (s : Ctx) : HOut :=
  invalidParamExitWrap (HandleSigma3Body env msgBytes toks s)

/-- Body of `CASESession::HandleSigma2Resume` before its exit block: read
the new resumption id and the Sigma2-resume MIC (each exactly 16 bytes),
validate the MIC, read the responder session id, send a success status
report, mark the session established, forget the exchange, and notify the
delegate. The state field is left unchanged, and the transcript hash is
never touched. -/
def HandleSigma2ResumeBody (env : Env) (toks : List TLVElem) (s : Ctx) : HOut :=
  match tlvNextSeq 1 toks with
  | .error e => ⟨some e, s, Effects.empty⟩
  | .ok (e1, r1) =>
  if e1.elemLength ≠ 16 then ⟨some .invalidTlvElement, s, Effects.empty⟩ else
  match tlvGetBytes 16 e1 with
  | .error e => ⟨some e, s, Effects.empty⟩
  | .ok rid =>
  let sA := { s with mResumptionId := overwriteBytes s.mResumptionId rid }
  match tlvNextSeq 2 r1 with
  | .error e => ⟨some e, sA, Effects.empty⟩
  | .ok (e2, r2) =>
  if e2.elemLength ≠ 16 then ⟨some .invalidTlvElement, sA, Effects.empty⟩ else
  match tlvGetBytes 16 e2 with
  | .error e => ⟨some e, sA, Effects.empty⟩
  | .ok mic =>
  match ValidateSigmaResumeMICM env mic sA.mInitiatorRandom sA.mResumptionId with
  | some e => ⟨some e, sA, Effects.empty⟩
  | none =>
  match tlvNextSeq 3 r2 with
  | .error e => ⟨some e, sA, Effects.empty⟩
  | .ok (e3, _r3) =>
  match tlvGetU16 e3 with
  | .error e => ⟨some e, sA, Effects.empty⟩
  | .ok sid =>
  let sB := { sA with peerSessionId := sid }
  let sC := { sB with mCASESessionEstablished := true, mExchangeCtxt := none }
  ⟨none, sC, Effects.app (statusEff kProtocolCodeSuccess) establishedEff⟩

/-- Model of `CASESession::HandleSigma2Resume` with its exit block. -/
def HandleSigma2Resume (env : Env) (toks : List TLVElem) (s : Ctx) : HOut :=
  invalidParamExitWrap (HandleSigma2ResumeBody env toks s)

/-- Decoded Status Report trailer. -/
structure StatusReportM where
  generalCode : Nat
  protocolId : Nat
  protocolCode : Nat
  deriving DecidableEq

/-- Model of `CASESession::OnSuccessStatusReport`: mark established, forget
the exchange, notify the delegate, reset the state to `kInitialized`. -/
def OnSuccessStatusReport (s : Ctx) : HOut :=
  ⟨none,
   { s with mCASESessionEstablished := true, mExchangeCtxt := none,
            mState := CASEState.kInitialized },
   establishedEff⟩

/-- Model of `CASESession::OnFailureStatusReport`: map the peer's protocol
code to a local error (`InvalidParam` ↦ `CHIP_ERROR_INVALID_CASE_PARAMETER`,
`NoSharedRoot` ↦ `CHIP_ERROR_NO_SHARED_TRUSTED_ROOT`, anything else ↦
`CHIP_ERROR_INTERNAL`) and reset the state to `kInitialized`. -/
def OnFailureStatusReport (protocolCode : Nat) (s : Ctx) : HOut :=
  let e :=
    if protocolCode = kProtocolCodeInvalidParam then CHIPError.invalidCaseParameter
    else if protocolCode = kProtocolCodeNoSharedRoot then CHIPError.noSharedTrustedRoot
    else CHIPError.internal
  ⟨some e, { s with mState := CASEState.kInitialized }, Effects.empty⟩

/-- Modelled from the spec: `PairingSession::HandleStatusReport` (defined
outside src/) parses the Status Report trailer and dispatches a success
report (general code `Success`, protocol code `kProtocolCodeSuccess`) to
`OnSuccessStatusReport` when a success was expected, and everything else to
`OnFailureStatusReport`. The transcript hash is never touched. -/
def HandleStatusReport (report : StatusReportM) (successExpected : Bool) (s : Ctx) : HOut :=
  if report.generalCode = 0 ∧ report.protocolCode = kProtocolCodeSuccess ∧ successExpected = true then
    OnSuccessStatusReport s
  else
    OnFailureStatusReport report.protocolCode s

/-- Inbound message as dispatched by `OnMessageReceived`: the payload-header
message type, the full on-wire payload bytes, and the two decoded views the
handlers read (the TLV element list and, for status reports, the trailer). -/
structure InboundMsg where
  msgType : MsgType
  bytes : Bytes
  toks : List TLVElem
  report : StatusReportM
  deriving DecidableEq

/-- Legal (state, message-type) dispatch pairs of `OnMessageReceived`'s
switch (the table of spec §4.1). -/
def legalPair (st : CASEState) (t : MsgType) : Bool :=
  match st, t with
  | .kInitialized, .sigma1 => true
  | .kSentSigma1, .sigma2 => true
  | .kSentSigma1, .sigma2Resume => true
  | .kSentSigma1, .statusReport => true
  | .kSentSigma2, .sigma3 => true
  | .kSentSigma2, .statusReport => true
  | .kSentSigma3, .statusReport => true
  | .kSentSigma2Resume, .statusReport => true
  | _, _ => false

/-- Dispatch switch of `OnMessageReceived`: a pair without a handler keeps
the default `CHIP_ERROR_INVALID_MESSAGE_TYPE`. -/
def omrDispatch (env : Env) (m : InboundMsg) (s : Ctx) : HOut :=
  match s.mState, m.msgType with
  | .kInitialized, .sigma1 => HandleSigma1 env m.bytes m.toks s
  | .kSentSigma1, .sigma2 => HandleSigma2AndSendSigma3 env m.bytes m.toks s
  | .kSentSigma1, .sigma2Resume => HandleSigma2Resume env m.toks s
  | .kSentSigma1, .statusReport => HandleStatusReport m.report false s
  | .kSentSigma2, .sigma3 => HandleSigma3 env m.bytes m.toks s
  | .kSentSigma2, .statusReport => HandleStatusReport m.report false s
  | .kSentSigma3, .statusReport => HandleStatusReport m.report true s
  | .kSentSigma2Resume, .statusReport => HandleStatusReport m.report true s
  | _, _ => ⟨some .invalidMessageType, s, Effects.empty⟩

/-- Error exit of `OnMessageReceived`: on any error the exchange handle is
nulled, the session cleared, and the delegate notified once with the
error. -/
def omrExit (r : HOut) : HOut :=
  match r.err with
  | none => r
  | some e =>
    ⟨some e, clearSession { r.s with mExchangeCtxt := none },
     Effects.app r.eff (delegateErrEff e)⟩

/-- Model of `CASESession::OnMessageReceived`: `ValidateReceivedMessage`
(null exchange, exchange mismatch, null message ⇒
`CHIP_ERROR_INVALID_ARGUMENT`; a first message adopts the exchange), the
state/type dispatch switch, and the error exit. -/
def OnMessageReceived (env : Env) (ec : Option Nat) (m : Option InboundMsg) (s : Ctx) : HOut :=
  match ec with
  | none => omrExit ⟨some .invalidArgument, s, Effects.empty⟩
  | some e =>
    match s.mExchangeCtxt with
    | some stored =>
      if stored = e then
        match m with
        | none => omrExit ⟨some .invalidArgument, s, Effects.empty⟩
        | some msg => omrExit (omrDispatch env msg s)
      else omrExit ⟨some .invalidArgument, s, Effects.empty⟩
    | none =>
      let s1 := { s with mExchangeCtxt := some e }
      match m with
      | none => omrExit ⟨some .invalidArgument, s1, Effects.empty⟩
      | some msg => omrExit (omrDispatch env msg s1)

/-- Model of `CASESession::SendSigma1`: ephemeral key, fresh initiator
random, destination identifier from the fabric handle, the optional
resumption pair when a previous session is resumable, then the wire message
is appended to the transcript hash, the state moves to `kSentSigma1`, the
message is sent, and the delegate is told establishment started. -/
def SendSigma1 (env : Env) (s : Ctx) : HOut :=
  match env.ephInit with
  | some e => ⟨some e, s, Effects.empty⟩
  | none =>
  match env.drbgInitiatorRandom with
  | .error e => ⟨some e, s, Effects.empty⟩
  | .ok rnd =>
  let s1 := { s with mInitiatorRandom := rnd.take 32 }
  if env.allocOk = false then ⟨some .noMemory, s1, Effects.empty⟩ else
  match s1.mFabricInfo with
  | none => ⟨some .incorrectState, s1, Effects.empty⟩
  | some _fi =>
  let s2 := { s1 with mIPK := env.ipkList.take 16 }
  match env.genDestId with
  | some e => ⟨some e, s2, Effects.empty⟩
  | none =>
  let resumeErr : Option CHIPError :=
    if s2.mCASESessionEstablished then
      match env.genResumeMIC s2.mInitiatorRandom s2.mResumptionId with
      | .error e => some e
      | .ok _ => none
    else none
  match resumeErr with
  | some e => ⟨some e, s2, Effects.empty⟩
  | none =>
  let s3 := { s2 with transcript := s2.transcript ++ [env.sigma1Bytes],
                      mState := CASEState.kSentSigma1 }
  match env.send MsgType.sigma1 with
  | some e => ⟨some e, s3, Effects.empty⟩
  | none => ⟨none, s3, Effects.app (msgEff MsgType.sigma1 env.sigma1Bytes) startedEff⟩

/-- Model of `CASESession::Init`: null delegate rejected, then `Clear`,
`mCommissioningHash.Begin()` and the local session id assignment. -/
def InitM (localSessionId : Nat) (hasDelegate : Bool) (s : Ctx) : Option CHIPError × Ctx :=
  if hasDelegate = false then (some .invalidArgument, s)
  else (none, { clearSession s with localSessionId := localSessionId })

/-- Model of `CASESession::EstablishSession`: null exchange or null fabric
are rejected up front, before any state is touched; afterwards the exchange
is adopted (so a failing `Init` still closes it via `Clear`), the fabric
and peer node id are stored, and Sigma1 is sent; any later failure clears
the session. -/
def EstablishSession (env : Env) (fabric : Option FabricInfoM) (peerNodeId localSessionId : Nat)
    (exchangeCtxt : Option Nat) (hasDelegate : Bool) (s : Ctx) : HOut :=
  match exchangeCtxt with
  | none => ⟨some .invalidArgument, s, Effects.empty⟩
  | some ec =>
  match fabric with
  | none => ⟨some .invalidArgument, s, Effects.empty⟩
  | some fi =>
    match InitM localSessionId hasDelegate s with
    | (some e, sI) => ⟨some e, clearSession { sI with mExchangeCtxt := some ec }, Effects.empty⟩
    | (none, sI) =>
      let s2 := { sI with mExchangeCtxt := some ec, mFabricInfo := some fi,
                          peerNodeId := peerNodeId }
      let r := SendSigma1 env s2
      match r.err with
      | some e => ⟨some e, clearSession r.s, r.eff⟩
      | none => r

/-- Symbolic record of a key-derivation call: the parameters handed to the
channel substrate. -/
structure DerivedSessionKeys where
  ikm : Bytes
  salt : Bytes
  info : Bytes
  deriving DecidableEq

/-- Model of `CASESession::DeriveSecureSession`: fails with
`CHIP_ERROR_INCORRECT_STATE` unless established; otherwise builds the salt
`mIPK ‖ mMessageDigest` and hands IKM = stored shared secret to the channel
substrate. The final HKDF with info `"SessionKeys"` lives in
`CryptoContext::InitFromSecret`, which is outside src/ — modelled from the
spec as recording the (IKM, salt, `kKDFSEInfo`) triple. -/
def DeriveSecureSession (allocOk : Bool) (s : Ctx) : Except CHIPError DerivedSessionKeys :=
  if s.mCASESessionEstablished = false then .error .incorrectState else
  if allocOk = false then .error .noMemory else
  .ok ⟨s.mSharedSecret.bytes.take s.mSharedSecret.len,
       s.mIPK ++ s.mMessageDigest, kKDFSEInfo⟩

/-- Serialized session layout (`CASESessionSerializable`); the little-endian
`HostSwap` calls are identity on the modelled values. -/
structure CASESessionSerializable where
  mVersion : Nat
  mSharedSecretLen : Nat
  mSharedSecret : Bytes
  mMessageDigestLen : Nat
  mMessageDigest : Bytes
  mPeerNodeId : Nat
  mLocalSessionId : Nat
  mPeerSessionId : Nat
  mResumptionId : Bytes
  deriving DecidableEq

/-- Model of `CASESession::FromSerializable`: version check, shared-secret
length restore, the (buggy) `memset(mSharedSecret, 0,
sizeof(mSharedSecret.Capacity()))` that zeroizes only `kSizeofSizeT` bytes
of the buffer, the shared-secret and digest copies, the id fields, the
resumption id, and the IPK taken from `GetIPKList` (`ipkList` argument),
then the session is marked established. -/
def FromSerializable (ipkList : Bytes) (ser : CASESessionSerializable) (s : Ctx) : Except CHIPError Ctx :=
  if ser.mVersion ≠ kCASESessionVersion then .error .versionMismatch else
  if ser.mSharedSecretLen > kSharedSecretCapacity then .error .invalidArgument else
  let buf0 := zeroFirst kSizeofSizeT s.mSharedSecret.bytes
  let buf1 := overwriteBytes buf0 (ser.mSharedSecret.take ser.mSharedSecretLen)
  let sA := { s with mSharedSecret := ⟨buf1, ser.mSharedSecretLen⟩ }
  if ser.mMessageDigestLen > 32 then .error .invalidArgument else
  let sB := { sA with
    mMessageDigest := overwriteBytes sA.mMessageDigest (ser.mMessageDigest.take ser.mMessageDigestLen) }
  let sC := { sB with peerNodeId := ser.mPeerNodeId, localSessionId := ser.mLocalSessionId,
                      peerSessionId := ser.mPeerSessionId,
                      mResumptionId := overwriteBytes sB.mResumptionId (ser.mResumptionId.take 16) }
  if ipkList.length ≠ 16 then .error .invalidArgument else
  .ok { sC with mIPK := ipkList, mCASESessionEstablished := true }

/-- Model of `CASESession::RetrieveIPK`: `memset(ipk.data(),
static_cast<int>(fabricId), ipk.size())` fills every byte of the output
span with the low 8 bits of the fabric id and returns `CHIP_NO_ERROR`. -/
def RetrieveIPK (fabricId : Nat) (ipk : Bytes) : Option CHIPError × Bytes :=
  (none, List.replicate ipk.length (fabricId % 256))

/-- Fabric handle whose accessors all succeed. -/
def happyFabric : FabricInfoM := ⟨.ok [], .ok [1], false, true⟩

/-- Environment in which every external collaborator call succeeds. -/
def happyEnv : Env :=
  { drbgInitiatorRandom := .ok (List.replicate 32 7)
    drbgResponderRandom := .ok (List.replicate 32 8)
    drbgResumptionIdS2 := .ok (List.replicate 16 9)
    drbgResumptionIdS2R := .ok (List.replicate 16 10)
    ephInit := none
    ecdh := .ok (List.replicate 32 11)
    hkdf := none
    aesEncrypt := none
    aesDecrypt2 := none
    aesDecrypt3 := none
    resumeMICValid := fun _ _ _ => none
    genResumeMIC := fun _ _ => .ok (List.replicate 16 12)
    findDestFabric := fun _ _ => some 1
    findFabricWithIndex := fun _ => some happyFabric
    verifyCreds := fun _ _ => .ok 77
    sign := .ok (List.replicate 64 0)
    sigValid := fun _ => none
    send := fun _ => none
    allocOk := true
    genDestId := none
    ipkList := List.replicate 16 0
    sigma1Bytes := [1, 1]
    sigma2Bytes := [2, 2]
    sigma2ResumeBytes := [2, 5]
    sigma3Bytes := [3, 3]
    tbe2 := [⟨1, .bytes [1]⟩, ⟨3, .bytes (List.replicate 64 0)⟩, ⟨4, .bytes (List.replicate 16 2)⟩]
    tbe3 := [⟨1, .bytes [1]⟩, ⟨3, .bytes (List.replicate 64 0)⟩] }

/-- Baseline session context with zeroed members. -/
def ctx0 : Ctx :=
  { mState := .kInitialized, mCASESessionEstablished := false, mExchangeCtxt := none,
    transcript := [], mMessageDigest := List.replicate 32 0,
    mSharedSecret := ⟨List.replicate 32 0, 0⟩, mResumptionId := List.replicate 16 0,
    mIPK := List.replicate 16 0, mInitiatorRandom := List.replicate 32 0,
    mRemotePubKey := List.replicate 65 0, localSessionId := 1, peerSessionId := 0,
    peerNodeId := 0, mFabricInfo := none, mFabricsTablePresent := true }

/-- Sigma1 element list with the given field values and optional parts. -/
def mkSigma1Toks (rand : Bytes) (sid : Nat) (dest pub : Bytes) (mrp : Bool)
    (rid : Option Bytes) (mic : Option Bytes) : List TLVElem :=
  [⟨1, .bytes rand⟩, ⟨2, .u16 sid⟩, ⟨3, .bytes dest⟩, ⟨4, .bytes pub⟩]
    ++ (if mrp then [⟨5, .tstruct⟩] else [])
    ++ (match rid with | some r => [⟨6, .bytes r⟩] | none => [])
    ++ (match mic with | some m => [⟨7, .bytes m⟩] | none => [])

/-- Concrete well-formed Sigma1 message (no resumption). -/
def sigma1MsgC : InboundMsg :=
  ⟨.sigma1, [9, 9],
   mkSigma1Toks (List.replicate 32 0) 5 (List.replicate 32 0) (List.replicate 65 0) false none none,
   ⟨0, 0, 0⟩⟩

/-- Concrete well-formed Sigma2 message. -/
def sigma2MsgC : InboundMsg :=
  ⟨.sigma2, [8, 8],
   [⟨1, .bytes (List.replicate 32 0)⟩, ⟨2, .u16 9⟩, ⟨3, .bytes (List.replicate 65 0)⟩,
    ⟨4, .bytes (List.replicate 32 1)⟩],
   ⟨0, 0, 0⟩⟩

/-- Concrete well-formed Sigma3 message. -/
def sigma3MsgC : InboundMsg :=
  ⟨.sigma3, [7, 7], [⟨1, .bytes (List.replicate 32 1)⟩], ⟨0, 0, 0⟩⟩

/-- Concrete well-formed Sigma2Resume message. -/
def sigma2ResumeMsgC : InboundMsg :=
  ⟨.sigma2Resume, [6, 6],
   [⟨1, .bytes (List.replicate 16 3)⟩, ⟨2, .bytes (List.replicate 16 4)⟩, ⟨3, .u16 9⟩],
   ⟨0, 0, 0⟩⟩

/-- Concrete success Status Report message. -/
def statusOkMsgC : InboundMsg := ⟨.statusReport, [5, 5], [], ⟨0, 0, 0⟩⟩

/-- Protocol code the error exit of `HandleSigma1` maps a fault to. -/
def statusCodeFor (e : CHIPError) : Nat :=
  if e = CHIPError.keyNotFound then kProtocolCodeNoSharedRoot else kProtocolCodeInvalidParam

lemma Effects.app_status (a b : Effects) :
    (Effects.app a b).statusReports = a.statusReports ++ b.statusReports := rfl

lemma Effects.app_messages (a b : Effects) :
    (Effects.app a b).messagesSent = a.messagesSent ++ b.messagesSent := rfl

lemma Effects.app_deleg (a b : Effects) :
    (Effects.app a b).delegateErrors = a.delegateErrors ++ b.delegateErrors := rfl

lemma SendSigma2_status (env : Env) (s : Ctx) :
    (SendSigma2 env s).eff.statusReports = [] := by
  unfold SendSigma2
  dsimp only
  repeat' split
  all_goals simp [msgEff, Effects.empty]

lemma SendSigma2_deleg (env : Env) (s : Ctx) :
    (SendSigma2 env s).eff.delegateErrors = [] := by
  unfold SendSigma2
  dsimp only
  repeat' split
  all_goals simp [msgEff, Effects.empty]

lemma SendSigma2_messages (env : Env) (s : Ctx) :
    ∀ x ∈ (SendSigma2 env s).eff.messagesSent, x.1 = MsgType.sigma2 := by
  unfold SendSigma2
  dsimp only
  repeat' split
  all_goals simp [msgEff, Effects.empty]

lemma SendSigma2_ok (env : Env) (s : Ctx) (h : (SendSigma2 env s).err = none) :
    (SendSigma2 env s).s.transcript = s.transcript ++ [env.sigma2Bytes] ∧
    (SendSigma2 env s).eff = msgEff MsgType.sigma2 env.sigma2Bytes ∧
    (SendSigma2 env s).s.mState = CASEState.kSentSigma2 := by
  unfold SendSigma2 at h ⊢
  dsimp only at h ⊢
  repeat' split at h
  all_goals simp_all

lemma SendSigma2Resume_status (env : Env) (rand : Bytes) (s : Ctx) :
    (SendSigma2Resume env rand s).eff.statusReports = [] := by
  unfold SendSigma2Resume
  dsimp only
  repeat' split
  all_goals simp [msgEff, Effects.empty]

lemma SendSigma2Resume_deleg (env : Env) (rand : Bytes) (s : Ctx) :
    (SendSigma2Resume env rand s).eff.delegateErrors = [] := by
  unfold SendSigma2Resume
  dsimp only
  repeat' split
  all_goals simp [msgEff, Effects.empty]

lemma SendSigma2Resume_transcript (env : Env) (rand : Bytes) (s : Ctx) :
    (SendSigma2Resume env rand s).s.transcript = s.transcript := by
  unfold SendSigma2Resume
  dsimp only
  repeat' split
  all_goals simp

lemma SendSigma2Resume_ok (env : Env) (rand : Bytes) (s : Ctx)
    (h : (SendSigma2Resume env rand s).err = none) :
    (SendSigma2Resume env rand s).eff = msgEff MsgType.sigma2Resume env.sigma2ResumeBytes := by
  unfold SendSigma2Resume at h ⊢
  dsimp only at h ⊢
  repeat' split at h
  all_goals simp_all

lemma Sigma1FullPath_status (env : Env) (p : Sigma1Parsed) (s : Ctx) :
    (Sigma1FullPath env p s).eff.statusReports = [] := by
  unfold Sigma1FullPath
  dsimp only
  repeat' split
  all_goals simp [Effects.empty, Effects.app_status, startedEff, SendSigma2_status]

lemma Sigma1FullPath_deleg (env : Env) (p : Sigma1Parsed) (s : Ctx) :
    (Sigma1FullPath env p s).eff.delegateErrors = [] := by
  unfold Sigma1FullPath
  dsimp only
  repeat' split
  all_goals simp [Effects.empty, Effects.app_deleg, startedEff, SendSigma2_deleg]

lemma Sigma1PostParse_status (env : Env) (p : Sigma1Parsed) (s : Ctx) :
    (Sigma1PostParse env p s).eff.statusReports = [] := by
  unfold Sigma1PostParse
  dsimp only
  repeat' split
  all_goals
    simp [Effects.empty, Effects.app_status, startedEff, SendSigma2Resume_status,
          Sigma1FullPath_status]

lemma Sigma1PostParse_deleg (env : Env) (p : Sigma1Parsed) (s : Ctx) :
    (Sigma1PostParse env p s).eff.delegateErrors = [] := by
  unfold Sigma1PostParse
  dsimp only
  repeat' split
  all_goals
    simp [Effects.empty, Effects.app_deleg, startedEff, SendSigma2Resume_deleg,
          Sigma1FullPath_deleg]

lemma HandleSigma1_err_status (env : Env) (b : Bytes) (toks : List TLVElem) (s : Ctx)
    (e : CHIPError) (h : (HandleSigma1 env b toks s).err = some e) :
    (HandleSigma1 env b toks s).eff.statusReports = [statusCodeFor e] ∧
    (HandleSigma1 env b toks s).eff.delegateErrors = [] := by
  unfold HandleSigma1 Sigma1AfterParse sigma1ExitWrap at h ⊢
  dsimp only at h ⊢
  repeat' split at h
  all_goals
    simp_all [statusCodeFor, Effects.app_status, Effects.app_deleg, statusEff, Effects.empty,
              Sigma1PostParse_status, Sigma1PostParse_deleg]

lemma sigma1ExitWrap_err (r : HOut) : (sigma1ExitWrap r).err = r.err := by
  unfold sigma1ExitWrap
  split <;> simp_all

lemma sigma1ExitWrap_ok (r : HOut) (h : r.err = none) : sigma1ExitWrap r = r := by
  unfold sigma1ExitWrap
  split <;> simp_all

lemma invalidParamExitWrap_err (r : HOut) : (invalidParamExitWrap r).err = r.err := by
  unfold invalidParamExitWrap
  split <;> simp_all

lemma invalidParamExitWrap_ok (r : HOut) (h : r.err = none) : invalidParamExitWrap r = r := by
  unfold invalidParamExitWrap
  split <;> simp_all

lemma sigma3SendExitWrap_err (r : HOut) : (sigma3SendExitWrap r).err = r.err := by
  unfold sigma3SendExitWrap
  split <;> simp_all

lemma sigma3SendExitWrap_ok (r : HOut) (h : r.err = none) : sigma3SendExitWrap r = r := by
  unfold sigma3SendExitWrap
  split <;> simp_all

lemma Sigma1FullPath_ok (env : Env) (p : Sigma1Parsed) (s : Ctx)
    (h : (Sigma1FullPath env p s).err = none) :
    (Sigma1FullPath env p s).s.transcript = s.transcript ++ [env.sigma2Bytes] ∧
    (Sigma1FullPath env p s).eff.messagesSent = [(MsgType.sigma2, env.sigma2Bytes)] := by
  unfold Sigma1FullPath at h ⊢
  dsimp only at h ⊢
  repeat' split at h
  all_goals try simp_all
  all_goals
    (rename_i hok
     rcases SendSigma2_ok _ _ hok with ⟨ht, he, _⟩
     simp_all [msgEff, Effects.app_messages, startedEff])

lemma Sigma1PostParse_ok (env : Env) (p : Sigma1Parsed) (s : Ctx)
    (h : (Sigma1PostParse env p s).err = none) :
    ((Sigma1PostParse env p s).s.transcript = s.transcript ++ [env.sigma2Bytes] ∧
      (Sigma1PostParse env p s).eff.messagesSent = [(MsgType.sigma2, env.sigma2Bytes)])
    ∨ ((Sigma1PostParse env p s).s.transcript = s.transcript ∧
      (Sigma1PostParse env p s).eff.messagesSent = [(MsgType.sigma2Resume, env.sigma2ResumeBytes)]) := by
  unfold Sigma1PostParse at h ⊢
  dsimp only at h ⊢
  split at h
  case isTrue =>
    split at h
    case h_1 =>
      split at h
      case h_1 => simp_all
      case h_2 =>
        rename_i hok
        right
        have heff := SendSigma2Resume_ok _ _ _ hok
        have htr := SendSigma2Resume_transcript env p.initiatorRandom
          { s with peerSessionId := p.initiatorSessionId }
        simp_all [msgEff, Effects.app_messages, startedEff]
    case h_2 =>
      left
      have := Sigma1FullPath_ok env p { s with peerSessionId := p.initiatorSessionId } h
      simp_all
  case isFalse =>
    rename_i hng
    left
    have hfull := Sigma1FullPath_ok env p { s with peerSessionId := p.initiatorSessionId } h
    rw [if_neg hng]
    exact hfull

lemma HandleSigma1_ok (env : Env) (b : Bytes) (toks : List TLVElem) (s : Ctx)
    (h : (HandleSigma1 env b toks s).err = none) :
    ((HandleSigma1 env b toks s).s.transcript = s.transcript ++ [b, env.sigma2Bytes] ∧
      (HandleSigma1 env b toks s).eff.messagesSent = [(MsgType.sigma2, env.sigma2Bytes)])
    ∨ ((HandleSigma1 env b toks s).s.transcript = s.transcript ++ [b] ∧
      (HandleSigma1 env b toks s).eff.messagesSent = [(MsgType.sigma2Resume, env.sigma2ResumeBytes)]) := by
  unfold HandleSigma1 Sigma1AfterParse at h ⊢
  dsimp only at h ⊢
  split at h
  case h_1 => rw [sigma1ExitWrap_err] at h; simp_all
  case h_2 =>
    rw [sigma1ExitWrap_err] at h
    rw [sigma1ExitWrap_ok _ h] at *
    have := Sigma1PostParse_ok env _ { s with transcript := s.transcript ++ [b] } h
    simp_all

lemma HandleSigma2Body_status (env : Env) (b : Bytes) (toks : List TLVElem) (s : Ctx) :
    (HandleSigma2Body env b toks s).eff.statusReports = [] := by
  unfold HandleSigma2Body
  dsimp only
  repeat' split
  all_goals simp [Effects.empty]

lemma HandleSigma2Body_deleg (env : Env) (b : Bytes) (toks : List TLVElem) (s : Ctx) :
    (HandleSigma2Body env b toks s).eff.delegateErrors = [] := by
  unfold HandleSigma2Body
  dsimp only
  repeat' split
  all_goals simp [Effects.empty]

lemma HandleSigma2Body_ok (env : Env) (b : Bytes) (toks : List TLVElem) (s : Ctx)
    (h : (HandleSigma2Body env b toks s).err = none) :
    (HandleSigma2Body env b toks s).s.transcript = s.transcript ++ [b] ∧
    (HandleSigma2Body env b toks s).eff = Effects.empty := by
  unfold HandleSigma2Body at h ⊢
  dsimp only at h ⊢
  repeat' split
  all_goals simp_all

lemma SendSigma3Body_status (env : Env) (s : Ctx) :
    (SendSigma3Body env s).eff.statusReports = [] := by
  unfold SendSigma3Body
  dsimp only
  repeat' split
  all_goals simp [Effects.empty, msgEff]

lemma SendSigma3Body_deleg (env : Env) (s : Ctx) :
    (SendSigma3Body env s).eff.delegateErrors = [] := by
  unfold SendSigma3Body
  dsimp only
  repeat' split
  all_goals simp [Effects.empty, msgEff]

lemma SendSigma3Body_ok (env : Env) (s : Ctx)
    (h : (SendSigma3Body env s).err = none) :
    (SendSigma3Body env s).s.transcript = s.transcript ++ [env.sigma3Bytes] ∧
    (SendSigma3Body env s).s.mMessageDigest = sha256Digest (s.transcript ++ [env.sigma3Bytes]) ∧
    (SendSigma3Body env s).eff = msgEff MsgType.sigma3 env.sigma3Bytes := by
  unfold SendSigma3Body at h ⊢
  dsimp only at h ⊢
  repeat' split
  all_goals simp_all

lemma HandleSigma3Body_deleg (env : Env) (b : Bytes) (toks : List TLVElem) (s : Ctx) :
    (HandleSigma3Body env b toks s).eff.delegateErrors = [] := by
  unfold HandleSigma3Body
  dsimp only
  repeat' split
  all_goals simp [Effects.empty, Effects.app_deleg, statusEff, establishedEff]

lemma HandleSigma3Body_err_status (env : Env) (b : Bytes) (toks : List TLVElem) (s : Ctx)
    (e : CHIPError) (h : (HandleSigma3Body env b toks s).err = some e) :
    (HandleSigma3Body env b toks s).eff.statusReports = [] := by
  unfold HandleSigma3Body at h ⊢
  dsimp only at h ⊢
  repeat' split
  all_goals simp_all [Effects.empty, Effects.app_status, statusEff, establishedEff]

lemma HandleSigma3Body_ok (env : Env) (b : Bytes) (toks : List TLVElem) (s : Ctx)
    (h : (HandleSigma3Body env b toks s).err = none) :
    (HandleSigma3Body env b toks s).s.transcript = s.transcript ++ [b] ∧
    (HandleSigma3Body env b toks s).s.mMessageDigest = sha256Digest (s.transcript ++ [b]) ∧
    (HandleSigma3Body env b toks s).s.mCASESessionEstablished = true ∧
    (HandleSigma3Body env b toks s).s.mExchangeCtxt = none := by
  unfold HandleSigma3Body at h ⊢
  dsimp only at h ⊢
  repeat' split
  all_goals simp_all

lemma HandleSigma2ResumeBody_deleg (env : Env) (toks : List TLVElem) (s : Ctx) :
    (HandleSigma2ResumeBody env toks s).eff.delegateErrors = [] := by
  unfold HandleSigma2ResumeBody
  dsimp only
  repeat' split
  all_goals simp [Effects.empty, Effects.app_deleg, statusEff, establishedEff]

lemma HandleSigma2ResumeBody_err_status (env : Env) (toks : List TLVElem) (s : Ctx)
    (e : CHIPError) (h : (HandleSigma2ResumeBody env toks s).err = some e) :
    (HandleSigma2ResumeBody env toks s).eff.statusReports = [] := by
  unfold HandleSigma2ResumeBody at h ⊢
  dsimp only at h ⊢
  repeat' split
  all_goals simp_all [Effects.empty, Effects.app_status, statusEff, establishedEff]

lemma HandleSigma2ResumeBody_transcript (env : Env) (toks : List TLVElem) (s : Ctx) :
    (HandleSigma2ResumeBody env toks s).s.transcript = s.transcript := by
  unfold HandleSigma2ResumeBody
  dsimp only
  repeat' split
  all_goals simp

lemma HandleSigma2ResumeBody_ok (env : Env) (toks : List TLVElem) (s : Ctx)
    (h : (HandleSigma2ResumeBody env toks s).err = none) :
    (HandleSigma2ResumeBody env toks s).s.mCASESessionEstablished = true ∧
    (HandleSigma2ResumeBody env toks s).s.mExchangeCtxt = none := by
  unfold HandleSigma2ResumeBody at h ⊢
  dsimp only at h ⊢
  repeat' split
  all_goals simp_all

lemma HandleStatusReport_transcript (r : StatusReportM) (ex : Bool) (s : Ctx) :
    (HandleStatusReport r ex s).s.transcript = s.transcript := by
  unfold HandleStatusReport OnSuccessStatusReport OnFailureStatusReport
  dsimp only
  repeat' split
  all_goals simp

lemma HandleStatusReport_status (r : StatusReportM) (ex : Bool) (s : Ctx) :
    (HandleStatusReport r ex s).eff.statusReports = [] := by
  unfold HandleStatusReport OnSuccessStatusReport OnFailureStatusReport
  dsimp only
  repeat' split
  all_goals simp [establishedEff, Effects.empty]

lemma HandleStatusReport_deleg (r : StatusReportM) (ex : Bool) (s : Ctx) :
    (HandleStatusReport r ex s).eff.delegateErrors = [] := by
  unfold HandleStatusReport OnSuccessStatusReport OnFailureStatusReport
  dsimp only
  repeat' split
  all_goals simp [establishedEff, Effects.empty]

lemma HandleSigma2_err_shape (env : Env) (b : Bytes) (toks : List TLVElem) (s : Ctx)
    (e : CHIPError) (h : (HandleSigma2 env b toks s).err = some e) :
    (HandleSigma2 env b toks s).eff.statusReports = [kProtocolCodeInvalidParam] ∧
    (HandleSigma2 env b toks s).eff.delegateErrors = [] := by
  unfold HandleSigma2 invalidParamExitWrap at h ⊢
  split at h
  all_goals
    simp_all [Effects.app_status, Effects.app_deleg, statusEff,
              HandleSigma2Body_status, HandleSigma2Body_deleg]

lemma SendSigma3_err_shape (env : Env) (s : Ctx)
    (e : CHIPError) (h : (SendSigma3 env s).err = some e) :
    (SendSigma3 env s).eff.statusReports = [kProtocolCodeInvalidParam] ∧
    (SendSigma3 env s).eff.delegateErrors = [] := by
  unfold SendSigma3 sigma3SendExitWrap at h ⊢
  split at h
  all_goals
    simp_all [Effects.app_status, Effects.app_deleg, statusEff,
              SendSigma3Body_status, SendSigma3Body_deleg]

lemma HandleSigma2AndSendSigma3_err_shape (env : Env) (b : Bytes) (toks : List TLVElem) (s : Ctx)
    (e : CHIPError) (h : (HandleSigma2AndSendSigma3 env b toks s).err = some e) :
    (HandleSigma2AndSendSigma3 env b toks s).eff.statusReports = [kProtocolCodeInvalidParam] ∧
    (HandleSigma2AndSendSigma3 env b toks s).eff.delegateErrors = [] := by
  unfold HandleSigma2AndSendSigma3 at h ⊢
  dsimp only at h ⊢
  split at h
  case h_1 =>
    rename_i x heq
    have := HandleSigma2_err_shape env b toks s x heq
    simp_all
  case h_2 =>
    rename_i heq
    have h2ok : (HandleSigma2 env b toks s).err = none := heq
    have hbodyok : (HandleSigma2Body env b toks s).err = none := by
      have := invalidParamExitWrap_err (HandleSigma2Body env b toks s)
      unfold HandleSigma2 at h2ok
      simp_all
    have hWrapId := invalidParamExitWrap_ok (HandleSigma2Body env b toks s) hbodyok
    have heffB := HandleSigma2Body_ok env b toks s hbodyok
    have h3 : (SendSigma3 env (HandleSigma2 env b toks s).s).err = some e := by
      simp_all
    have h3s := SendSigma3_err_shape env (HandleSigma2 env b toks s).s _ h3
    constructor
    · simp_all [Effects.app_status, HandleSigma2Body_status]
      unfold HandleSigma2
      simp [hWrapId, heffB.2, Effects.empty]
    · simp_all [Effects.app_deleg, HandleSigma2Body_deleg]
      unfold HandleSigma2
      simp [hWrapId, heffB.2, Effects.empty]

lemma HandleSigma3_err_shape (env : Env) (b : Bytes) (toks : List TLVElem) (s : Ctx)
    (e : CHIPError) (h : (HandleSigma3 env b toks s).err = some e) :
    (HandleSigma3 env b toks s).eff.statusReports = [kProtocolCodeInvalidParam] ∧
    (HandleSigma3 env b toks s).eff.delegateErrors = [] := by
  unfold HandleSigma3 invalidParamExitWrap at h ⊢
  split at h
  case h_1 => simp_all
  case h_2 =>
    have hs := HandleSigma3Body_err_status env b toks s e (by simp_all)
    have hd := HandleSigma3Body_deleg env b toks s
    simp_all [Effects.app_status, Effects.app_deleg, statusEff]

lemma HandleSigma2Resume_err_shape (env : Env) (toks : List TLVElem) (s : Ctx)
    (e : CHIPError) (h : (HandleSigma2Resume env toks s).err = some e) :
    (HandleSigma2Resume env toks s).eff.statusReports = [kProtocolCodeInvalidParam] ∧
    (HandleSigma2Resume env toks s).eff.delegateErrors = [] := by
  unfold HandleSigma2Resume invalidParamExitWrap at h ⊢
  split at h
  case h_1 => simp_all
  case h_2 =>
    have hs := HandleSigma2ResumeBody_err_status env toks s e (by simp_all)
    have hd := HandleSigma2ResumeBody_deleg env toks s
    simp_all [Effects.app_status, Effects.app_deleg, statusEff]

lemma omrExit_err (r : HOut) : (omrExit r).err = r.err := by
  unfold omrExit
  split <;> simp_all

lemma omrExit_some (r : HOut) (e : CHIPError) (h : r.err = some e) :
    omrExit r = ⟨some e, clearSession { r.s with mExchangeCtxt := none },
                 Effects.app r.eff (delegateErrEff e)⟩ := by
  unfold omrExit
  split <;> simp_all

lemma omrExit_ok (r : HOut) (h : r.err = none) : omrExit r = r := by
  unfold omrExit
  split <;> simp_all

lemma clearSession_state (c : Ctx) : (clearSession c).mState = CASEState.kInitialized := rfl

lemma clearSession_exchange (c : Ctx) : (clearSession c).mExchangeCtxt = none := rfl

lemma clearSession_established (c : Ctx) : (clearSession c).mCASESessionEstablished = false := rfl

lemma clearSession_transcript (c : Ctx) : (clearSession c).transcript = [] := rfl

lemma omrDispatch_default (env : Env) (m : InboundMsg) (s : Ctx)
    (h : legalPair s.mState m.msgType = false) :
    omrDispatch env m s = ⟨some .invalidMessageType, s, Effects.empty⟩ := by
  unfold omrDispatch legalPair at *
  cases hs : s.mState <;> cases hm : m.msgType <;> simp_all

/-- C1: for every (current state, inbound message type) pair not listed in
the legal-transition table, `OnMessageReceived` (invoked with a valid
matching exchange and a non-null message) returns
`CHIP_ERROR_INVALID_MESSAGE_TYPE` and aborts the session: the session is
cleared to its terminal failed condition (`clearSession`: state
`kInitialized`, not established, transcript wiped, exchange handle nulled)
and the delegate is notified exactly once with the error. -/
theorem c1_unlisted_pair_invalid_message_type (env : Env) (ec : Nat) (m : InboundMsg) (s : Ctx)
    (hleg : legalPair s.mState m.msgType = false)
    (hex : s.mExchangeCtxt = none ∨ s.mExchangeCtxt = some ec) :
    (OnMessageReceived env (some ec) (some m) s).err = some CHIPError.invalidMessageType ∧
    (OnMessageReceived env (some ec) (some m) s).s = clearSession s ∧
    (OnMessageReceived env (some ec) (some m) s).eff = delegateErrEff CHIPError.invalidMessageType := by
  rcases hex with h | h <;>
  · simp only [OnMessageReceived, h]
    rw [omrDispatch_default env m _ (by simpa using hleg)]
    simp [omrExit, clearSession, Effects.app, Effects.empty, delegateErrEff]

/-- Witness for C1 at a concrete illegal pair: a Sigma2 arriving in the
`kInitialized` state. -/
theorem c1_witness :
    legalPair ctx0.mState sigma2MsgC.msgType = false ∧
    (OnMessageReceived happyEnv (some 5) (some sigma2MsgC) ctx0).err = some CHIPError.invalidMessageType ∧
    (OnMessageReceived happyEnv (some 5) (some sigma2MsgC) ctx0).s = clearSession ctx0 ∧
    (OnMessageReceived happyEnv (some 5) (some sigma2MsgC) ctx0).eff = delegateErrEff CHIPError.invalidMessageType :=
  ⟨by decide, c1_unlisted_pair_invalid_message_type happyEnv 5 sigma2MsgC ctx0 (by decide) (Or.inl rfl)⟩

/-- C3 (amended): when exactly one of the optional tags 6 (resumptionId)
and 7 (initiatorResume1MIC) is present in an otherwise well-formed Sigma1
(fields correctly sized), parsing fails — but with
`CHIP_ERROR_UNEXPECTED_TLV_ELEMENT`, not `InvalidCaseParameter` as the
claim states. -/
theorem c3_amended_unexpected_tlv (rand : Bytes) (sid : Nat) (dest pub : Bytes) (mrp : Bool)
    (rid mic : Option Bytes)
    (hr : rand.length = 32) (hs : sid < 65536) (hd : dest.length = 32) (hp : pub.length = 65)
    (hrid : ∀ r ∈ rid, r.length = 16) (hmic : ∀ mm ∈ mic, mm.length = 16)
    (hne : rid.isSome ≠ mic.isSome) :
    ParseSigma1 (mkSigma1Toks rand sid dest pub mrp rid mic)
      = .error CHIPError.unexpectedTlvElement := by
  rcases rid with _ | r <;> rcases mic with _ | mm <;> simp only [Option.isSome] at hne
  · exact absurd rfl hne
  · cases mrp <;>
      simp_all [ParseSigma1, mkSigma1Toks, tlvNextExpectTag, tlvGetByteView, tlvGetU16,
                tlvNextRaw, parseSigma1Tag6, parseSigma1Tag7, parseSigma1Finish]
  · cases mrp <;>
      simp_all [ParseSigma1, mkSigma1Toks, tlvNextExpectTag, tlvGetByteView, tlvGetU16,
                tlvNextRaw, parseSigma1Tag6, parseSigma1Tag7, parseSigma1Finish]
  · exact absurd rfl hne

/-- Counterexample to C3 as stated: a well-formed Sigma1 carrying tag 6 but
not tag 7 parses to `CHIP_ERROR_UNEXPECTED_TLV_ELEMENT`, which is not the
`InvalidCaseParameter` error the claim names. -/
theorem c3_counterexample :
    ParseSigma1 (mkSigma1Toks (List.replicate 32 0) 5 (List.replicate 32 0) (List.replicate 65 0)
        false (some (List.replicate 16 0)) none)
      = .error CHIPError.unexpectedTlvElement ∧
    ParseSigma1 (mkSigma1Toks (List.replicate 32 0) 5 (List.replicate 32 0) (List.replicate 65 0)
        false (some (List.replicate 16 0)) none)
      ≠ .error CHIPError.invalidCaseParameter := by
  constructor
  · decide
  · decide

/-- Witness for the amended C3 at a concrete one-sided Sigma1. -/
theorem c3_witness :
    (List.replicate 32 0 : Bytes).length = 32 ∧
    ParseSigma1 (mkSigma1Toks (List.replicate 32 0) 7 (List.replicate 32 0) (List.replicate 65 0)
        true none (some (List.replicate 16 1)))
      = .error CHIPError.unexpectedTlvElement :=
  ⟨by decide,
   c3_amended_unexpected_tlv (List.replicate 32 0) 7 (List.replicate 32 0) (List.replicate 65 0)
     true none (some (List.replicate 16 1)) (by decide) (by decide) (by decide) (by decide)
     (by intro r hr; cases hr) (by intro mm hmm; cases hmm; decide) (by decide)⟩

/-- C7: `EstablishSession` returns `CHIP_ERROR_INVALID_ARGUMENT` when the
exchange context or the fabric argument is null, and in that case the
session state is untouched and nothing is sent (no effects at all). -/
theorem c7_establish_null_args (env : Env) (fabric : Option FabricInfoM)
    (pid lsid : Nat) (exch : Option Nat) (hasDel : Bool) (s : Ctx)
    (h : exch = none ∨ fabric = none) :
    EstablishSession env fabric pid lsid exch hasDel s
      = ⟨some CHIPError.invalidArgument, s, Effects.empty⟩ := by
  rcases h with h | h
  · subst h; rfl
  · subst h; cases exch <;> rfl

/-- Witness for C7: a null fabric with a live exchange. -/
theorem c7_witness :
    EstablishSession happyEnv none 9 2 (some 5) true ctx0
      = ⟨some CHIPError.invalidArgument, ctx0, Effects.empty⟩ :=
  c7_establish_null_args happyEnv none 9 2 (some 5) true ctx0 (Or.inr rfl)

/-- C8: `DeriveSecureSession` fails with `CHIP_ERROR_INCORRECT_STATE`
whenever the session is not established; when established, the key
derivation receives IKM = the stored shared secret, salt = the 16-byte IPK
concatenated with the 32-byte final message digest (48 bytes total), and
the info string `"SessionKeys"` (`kKDFSEInfo`). -/
theorem c8_derive_secure_session :
    (∀ (a : Bool) (s : Ctx), s.mCASESessionEstablished = false →
      DeriveSecureSession a s = .error CHIPError.incorrectState)
    ∧ (∀ s : Ctx, s.mCASESessionEstablished = true →
      DeriveSecureSession true s
        = .ok ⟨s.mSharedSecret.bytes.take s.mSharedSecret.len,
               s.mIPK ++ s.mMessageDigest, kKDFSEInfo⟩)
    ∧ (∀ s : Ctx, s.mIPK.length = 16 → s.mMessageDigest.length = 32 →
      (s.mIPK ++ s.mMessageDigest).length = 48)
    ∧ kKDFSEInfo = (String.toList "SessionKeys").map Char.toNat := by
  refine ⟨?_, ?_, ?_, ?_⟩
  · intro a s h
    simp [DeriveSecureSession, h]
  · intro s h
    simp [DeriveSecureSession, h]
  · intro s h1 h2
    simp [List.length_append, h1, h2]
  · rfl

/-- Witness for C8: an established and a non-established context. -/
theorem c8_witness :
    DeriveSecureSession true { ctx0 with mCASESessionEstablished := true }
      = .ok ⟨({ ctx0 with mCASESessionEstablished := true } : Ctx).mSharedSecret.bytes.take
               ({ ctx0 with mCASESessionEstablished := true } : Ctx).mSharedSecret.len,
             ({ ctx0 with mCASESessionEstablished := true } : Ctx).mIPK ++
               ({ ctx0 with mCASESessionEstablished := true } : Ctx).mMessageDigest, kKDFSEInfo⟩ ∧
    DeriveSecureSession true ctx0 = .error CHIPError.incorrectState :=
  ⟨c8_derive_secure_session.2.1 { ctx0 with mCASESessionEstablished := true } rfl,
   c8_derive_secure_session.1 true ctx0 rfl⟩

/-- C9: during `FromSerializable` the zeroization clears only
`sizeof(mSharedSecret.Capacity())` = `kSizeofSizeT` bytes (the size of the
capacity value, not the capacity): every byte of the prior shared-secret
buffer at an index at or beyond `kSizeofSizeT` that the subsequent copy
does not overwrite survives deserialization un-zeroized. -/
theorem c9_zeroize_sizeof_bug (s : Ctx) (ser : CASESessionSerializable) (ipkList : Bytes) (i : Nat)
    (hv : ser.mVersion = 1) (hlen : ser.mSharedSecretLen ≤ 32)
    (hsrc : ser.mSharedSecret.length = 32) (hdl : ser.mMessageDigestLen ≤ 32)
    (hipk : ipkList.length = 16) (hbuf : s.mSharedSecret.bytes.length = 32)
    (hi1 : kSizeofSizeT ≤ i) (hi2 : i < kSharedSecretCapacity) (hi3 : ser.mSharedSecretLen ≤ i) :
    ∃ s2, FromSerializable ipkList ser s = .ok s2 ∧
      s2.mSharedSecret.bytes[i]? = s.mSharedSecret.bytes[i]? := by
  simp only [kSizeofSizeT, kSharedSecretCapacity] at *
  unfold FromSerializable
  rw [if_neg (by simp [kCASESessionVersion, hv]),
      if_neg (by simp [kSharedSecretCapacity]; omega),
      if_neg (by omega), if_neg (by omega)]
  refine ⟨_, rfl, ?_⟩
  simp only [overwriteBytes, zeroFirst]
  have htake : (ser.mSharedSecret.take ser.mSharedSecretLen).length = ser.mSharedSecretLen := by
    rw [List.length_take]; omega
  rw [List.getElem?_append_right (by omega), htake, List.getElem?_drop]
  have h8 : min kSizeofSizeT s.mSharedSecret.bytes.length = 8 := by
    simp [kSizeofSizeT, hbuf]
  rw [h8]
  rw [List.getElem?_append_right (by simp [List.length_replicate]; omega)]
  rw [List.length_replicate, List.getElem?_drop]
  congr 1
  omega

/-- Prior session whose shared-secret buffer is filled with the byte 9. -/
def s9 : Ctx := { ctx0 with mSharedSecret := ⟨List.replicate 32 9, 32⟩ }

/-- Serialized session with an empty shared secret. -/
def ser9 : CASESessionSerializable :=
  ⟨1, 0, List.replicate 32 0, 0, List.replicate 32 0, 3, 4, 5, List.replicate 16 0⟩

/-- Witness for C9: after deserializing `ser9` over `s9`, byte 10 of the
shared-secret buffer still holds the stale value 9. -/
theorem c9_witness :
    (∃ s2, FromSerializable (List.replicate 16 0) ser9 s9 = .ok s2 ∧
      s2.mSharedSecret.bytes[10]? = s9.mSharedSecret.bytes[10]?) ∧
    s9.mSharedSecret.bytes[10]? = some 9 :=
  ⟨c9_zeroize_sizeof_bug s9 ser9 (List.replicate 16 0) 10 (by decide) (by decide) (by decide)
     (by decide) (by decide) (by decide) (by decide) (by decide) (by decide),
   by decide⟩

/-- C10: `RetrieveIPK` cannot fail, fills every byte of the output buffer
with the low 8 bits of the fabric id, and its output depends only on the
fabric id and the buffer size — never on a provisioned secret. -/
theorem c10_retrieve_ipk :
    (∀ (fid : Nat) (buf : Bytes), (RetrieveIPK fid buf).1 = none)
    ∧ (∀ (fid i : Nat) (buf : Bytes), i < buf.length →
        (RetrieveIPK fid buf).2[i]? = some (fid % 256))
    ∧ (∀ (fid : Nat) (b1 b2 : Bytes), b1.length = b2.length →
        (RetrieveIPK fid b1).2 = (RetrieveIPK fid b2).2) := by
  refine ⟨fun _ _ => rfl, ?_, ?_⟩
  · intro fid i buf h
    simp [RetrieveIPK, List.getElem?_replicate, h]
  · intro fid b1 b2 h
    simp [RetrieveIPK, h]

/-- Witness for C10 at fabric id 0x1234 and two distinct 16-byte buffers. -/
theorem c10_witness :
    (RetrieveIPK 4660 (List.replicate 16 7)).1 = none ∧
    (RetrieveIPK 4660 (List.replicate 16 7)).2[3]? = some (4660 % 256) ∧
    (RetrieveIPK 4660 (List.replicate 16 7)).2 = (RetrieveIPK 4660 (List.replicate 16 250)).2 :=
  ⟨c10_retrieve_ipk.1 4660 (List.replicate 16 7),
   c10_retrieve_ipk.2.1 4660 3 (List.replicate 16 7) (by decide),
   c10_retrieve_ipk.2.2 4660 (List.replicate 16 7) (List.replicate 16 250) (by decide)⟩

lemma invalidParamExitWrap_s (r : HOut) : (invalidParamExitWrap r).s = r.s := by
  unfold invalidParamExitWrap
  split <;> simp

/-- C6: on every path that marks the session established — the initiator
completing Sigma2Resume, the responder completing Sigma3, and receipt of a
success Status Report — the exchange handle is nulled before control
returns, so an established session never holds an exchange handle. -/
theorem c6_established_clears_exchange :
    (∀ (env : Env) (toks : List TLVElem) (s : Ctx), (HandleSigma2Resume env toks s).err = none →
      (HandleSigma2Resume env toks s).s.mExchangeCtxt = none ∧
      (HandleSigma2Resume env toks s).s.mCASESessionEstablished = true)
    ∧ (∀ (env : Env) (b : Bytes) (toks : List TLVElem) (s : Ctx),
        (HandleSigma3 env b toks s).err = none →
        (HandleSigma3 env b toks s).s.mExchangeCtxt = none ∧
        (HandleSigma3 env b toks s).s.mCASESessionEstablished = true)
    ∧ (∀ s : Ctx, (OnSuccessStatusReport s).s.mExchangeCtxt = none ∧
        (OnSuccessStatusReport s).s.mCASESessionEstablished = true) := by
  refine ⟨?_, ?_, fun s => ⟨rfl, rfl⟩⟩
  · intro env toks s h
    have hbok : (HandleSigma2ResumeBody env toks s).err = none := by
      have := invalidParamExitWrap_err (HandleSigma2ResumeBody env toks s)
      unfold HandleSigma2Resume at h
      simp_all
    have hb := HandleSigma2ResumeBody_ok env toks s hbok
    unfold HandleSigma2Resume
    rw [invalidParamExitWrap_ok _ hbok]
    exact ⟨hb.2, hb.1⟩
  · intro env b toks s h
    have hbok : (HandleSigma3Body env b toks s).err = none := by
      have := invalidParamExitWrap_err (HandleSigma3Body env b toks s)
      unfold HandleSigma3 at h
      simp_all
    have hb := HandleSigma3Body_ok env b toks s hbok
    unfold HandleSigma3
    rw [invalidParamExitWrap_ok _ hbok]
    exact ⟨hb.2.2.2, hb.2.2.1⟩

/-- Session contexts used by the concrete witnesses: a responder that has
sent Sigma2, and fabric-loaded variants of the baseline context. -/
def ctxFab : Ctx := { ctx0 with mFabricInfo := some happyFabric }

/-- Witness for C6 at concrete successful Sigma2Resume / Sigma3 runs. -/
theorem c6_witness :
    ((HandleSigma2Resume happyEnv sigma2ResumeMsgC.toks ctx0).err = none →
      (HandleSigma2Resume happyEnv sigma2ResumeMsgC.toks ctx0).s.mExchangeCtxt = none ∧
      (HandleSigma2Resume happyEnv sigma2ResumeMsgC.toks ctx0).s.mCASESessionEstablished = true) ∧
    (HandleSigma2Resume happyEnv sigma2ResumeMsgC.toks ctx0).err = none ∧
    ((HandleSigma3 happyEnv sigma3MsgC.bytes sigma3MsgC.toks ctxFab).err = none →
      (HandleSigma3 happyEnv sigma3MsgC.bytes sigma3MsgC.toks ctxFab).s.mExchangeCtxt = none ∧
      (HandleSigma3 happyEnv sigma3MsgC.bytes sigma3MsgC.toks ctxFab).s.mCASESessionEstablished = true) ∧
    (HandleSigma3 happyEnv sigma3MsgC.bytes sigma3MsgC.toks ctxFab).err = none ∧
    ((OnSuccessStatusReport ctx0).s.mExchangeCtxt = none ∧
      (OnSuccessStatusReport ctx0).s.mCASESessionEstablished = true) :=
  ⟨c6_established_clears_exchange.1 happyEnv sigma2ResumeMsgC.toks ctx0, by decide,
   c6_established_clears_exchange.2.1 happyEnv sigma3MsgC.bytes sigma3MsgC.toks ctxFab, by decide,
   c6_established_clears_exchange.2.2 ctx0⟩

lemma Sigma1FullPath_strip (env : Env) (p : Sigma1Parsed) (s : Ctx) :
    Sigma1FullPath env
      { p with resumptionRequested := false, resumptionId := [], initiatorResumeMIC := [] } s
      = Sigma1FullPath env p s := rfl

lemma sigma1ExitWrap_messages (r : HOut) :
    (sigma1ExitWrap r).eff.messagesSent = r.eff.messagesSent := by
  unfold sigma1ExitWrap
  split <;> simp [Effects.app_messages, statusEff]

lemma Sigma1FullPath_messages (env : Env) (p : Sigma1Parsed) (s : Ctx) :
    ∀ x ∈ (Sigma1FullPath env p s).eff.messagesSent, x.1 = MsgType.sigma2 := by
  unfold Sigma1FullPath
  dsimp only
  repeat' split
  all_goals
    first
    | (intro x hx; exact SendSigma2_messages env _ x hx)
    | (intro x hx
       rw [Effects.app_messages] at hx
       simp only [startedEff, List.append_nil] at hx
       exact SendSigma2_messages env _ x hx)
    | (intro x hx; simp [Effects.empty] at hx)

/-- C5: when a responder receives a Sigma1 that requests resumption but
whose resumption id does not match the stored one or whose Resume1MIC
fails validation, handling does not abort: the post-parse processing is
exactly the run on the same Sigma1 with the resumption request stripped
(the full handshake path: fabric lookup and Sigma2), and no Sigma2Resume
is sent. -/
theorem c5_resume_fallback_full_handshake (env : Env) (p : Sigma1Parsed) (s : Ctx)
    (hreq : p.resumptionRequested = true)
    (hbad : p.resumptionId ≠ s.mResumptionId ∨
      ValidateSigmaResumeMICM env p.initiatorResumeMIC p.initiatorRandom p.resumptionId ≠ none) :
    Sigma1AfterParse env p s
      = Sigma1AfterParse env
          { p with resumptionRequested := false, resumptionId := [], initiatorResumeMIC := [] } s
    ∧ ∀ x ∈ (Sigma1AfterParse env p s).eff.messagesSent, x.1 ≠ MsgType.sigma2Resume := by
  have hbody : Sigma1PostParse env p s
      = Sigma1FullPath env p { s with peerSessionId := p.initiatorSessionId } := by
    unfold Sigma1PostParse
    dsimp only
    by_cases hid : p.resumptionId = s.mResumptionId
    · rcases hbad with h | h
      · exact absurd hid h
      · rw [if_pos ⟨hreq, hid⟩]
        rcases hv : ValidateSigmaResumeMICM env p.initiatorResumeMIC p.initiatorRandom
            p.resumptionId with _ | e
        · exact absurd hv h
        · simp [hv]
    · rw [if_neg (fun hc => hid hc.2)]
  have hbody' : Sigma1PostParse env
      { p with resumptionRequested := false, resumptionId := [], initiatorResumeMIC := [] } s
      = Sigma1FullPath env p { s with peerSessionId := p.initiatorSessionId } := by
    unfold Sigma1PostParse
    dsimp only
    rw [if_neg (by simp)]
    exact Sigma1FullPath_strip env p { s with peerSessionId := p.initiatorSessionId }
  constructor
  · unfold Sigma1AfterParse
    rw [hbody, hbody']
  · unfold Sigma1AfterParse
    rw [hbody]
    intro x hx
    rw [sigma1ExitWrap_messages] at hx
    have := Sigma1FullPath_messages env p { s with peerSessionId := p.initiatorSessionId } x hx
    simp [this]

/-- Parsed Sigma1 requesting resumption with the stored id. -/
def pResume : Sigma1Parsed :=
  ⟨List.replicate 32 0, 5, List.replicate 32 0, List.replicate 65 0, true,
   List.replicate 16 0, List.replicate 16 0⟩

/-- Environment in which the resume-MIC validation fails. -/
def envBadMIC : Env := { happyEnv with resumeMICValid := fun _ _ _ => some CHIPError.invalidSignature }

/-- Witness for C5: a matching resumption id whose MIC fails validation
falls back to the full handshake run. -/
theorem c5_witness :
    (ValidateSigmaResumeMICM envBadMIC pResume.initiatorResumeMIC pResume.initiatorRandom
        pResume.resumptionId ≠ none) ∧
    Sigma1AfterParse envBadMIC pResume ctx0
      = Sigma1AfterParse envBadMIC
          { pResume with resumptionRequested := false, resumptionId := [],
                         initiatorResumeMIC := [] } ctx0 ∧
    ∀ x ∈ (Sigma1AfterParse envBadMIC pResume ctx0).eff.messagesSent, x.1 ≠ MsgType.sigma2Resume :=
  ⟨by decide,
   (c5_resume_fallback_full_handshake envBadMIC pResume ctx0 rfl (Or.inr (by decide))).1,
   (c5_resume_fallback_full_handshake envBadMIC pResume ctx0 rfl (Or.inr (by decide))).2⟩

lemma SendSigma1_ok (env : Env) (s : Ctx) (h : (SendSigma1 env s).err = none) :
    (SendSigma1 env s).s.transcript = s.transcript ++ [env.sigma1Bytes] ∧
    (SendSigma1 env s).eff.messagesSent = [(MsgType.sigma1, env.sigma1Bytes)] := by
  unfold SendSigma1 at h ⊢
  dsimp only at h ⊢
  repeat' split
  all_goals simp_all [Effects.app_messages, msgEff, startedEff, Effects.empty]

lemma HandleSigma2AndSendSigma3_ok (env : Env) (b : Bytes) (toks : List TLVElem) (s : Ctx)
    (h : (HandleSigma2AndSendSigma3 env b toks s).err = none) :
    (HandleSigma2AndSendSigma3 env b toks s).s.transcript
      = s.transcript ++ [b, env.sigma3Bytes] ∧
    (HandleSigma2AndSendSigma3 env b toks s).eff.messagesSent
      = [(MsgType.sigma3, env.sigma3Bytes)] ∧
    (HandleSigma2AndSendSigma3 env b toks s).s.mMessageDigest
      = sha256Digest (s.transcript ++ [b, env.sigma3Bytes]) := by
  unfold HandleSigma2AndSendSigma3 at h ⊢
  dsimp only at h ⊢
  split at h
  case h_1 => simp_all
  case h_2 =>
    rename_i heq
    have hbok : (HandleSigma2Body env b toks s).err = none := by
      have := invalidParamExitWrap_err (HandleSigma2Body env b toks s)
      unfold HandleSigma2 at heq
      simp_all
    have hwrap := invalidParamExitWrap_ok (HandleSigma2Body env b toks s) hbok
    have hb := HandleSigma2Body_ok env b toks s hbok
    have h3ok : (SendSigma3 env (HandleSigma2 env b toks s).s).err = none := by
      simpa using h
    have h3bok : (SendSigma3Body env (HandleSigma2 env b toks s).s).err = none := by
      have := sigma3SendExitWrap_err (SendSigma3Body env (HandleSigma2 env b toks s).s)
      unfold SendSigma3 at h3ok
      simp_all
    have h3wrap := sigma3SendExitWrap_ok (SendSigma3Body env (HandleSigma2 env b toks s).s) h3bok
    have h3 := SendSigma3Body_ok env (HandleSigma2 env b toks s).s h3bok
    have hs2 : (HandleSigma2 env b toks s).s.transcript = s.transcript ++ [b] := by
      unfold HandleSigma2
      rw [hwrap]
      exact hb.1
    have heff2 : (HandleSigma2 env b toks s).eff = Effects.empty := by
      unfold HandleSigma2
      rw [hwrap]
      exact hb.2
    unfold SendSigma3 at *
    rw [h3wrap] at *
    refine ⟨?_, ?_, ?_⟩
    · rw [h3.1, hs2, List.append_assoc]
      rfl
    · rw [Effects.app_messages, heff2, h3.2.2]
      rfl
    · rw [h3.2.1, hs2, List.append_assoc]
      rfl

lemma HandleSigma3_ok_shape (env : Env) (b : Bytes) (toks : List TLVElem) (s : Ctx)
    (h : (HandleSigma3 env b toks s).err = none) :
    (HandleSigma3 env b toks s).s.transcript = s.transcript ++ [b] ∧
    (HandleSigma3 env b toks s).s.mMessageDigest = sha256Digest (s.transcript ++ [b]) := by
  have hbok : (HandleSigma3Body env b toks s).err = none := by
    have := invalidParamExitWrap_err (HandleSigma3Body env b toks s)
    unfold HandleSigma3 at h
    simp_all
  have hb := HandleSigma3Body_ok env b toks s hbok
  unfold HandleSigma3
  rw [invalidParamExitWrap_ok _ hbok]
  exact ⟨hb.1, hb.2.1⟩

/-- C2: the transcript hash is updated exactly once per Sigma1 / Sigma2 /
Sigma3 handshake message, in message order, with the full on-wire bytes of
that message: each successful send or receive of a handshake message
appends exactly that message's wire bytes to the transcript (the message
bytes recorded as sent are the very bytes appended), and no path of
`SendSigma2Resume`, `HandleSigma2Resume` or the status-report handlers
touches the transcript. -/
theorem c2_transcript_once_per_message :
    (∀ (env : Env) (s : Ctx), (SendSigma1 env s).err = none →
      (SendSigma1 env s).s.transcript = s.transcript ++ [env.sigma1Bytes] ∧
      (SendSigma1 env s).eff.messagesSent = [(MsgType.sigma1, env.sigma1Bytes)])
    ∧ (∀ (env : Env) (b : Bytes) (toks : List TLVElem) (s : Ctx),
        (HandleSigma1 env b toks s).err = none →
        ((HandleSigma1 env b toks s).s.transcript = s.transcript ++ [b, env.sigma2Bytes] ∧
          (HandleSigma1 env b toks s).eff.messagesSent = [(MsgType.sigma2, env.sigma2Bytes)])
        ∨ ((HandleSigma1 env b toks s).s.transcript = s.transcript ++ [b] ∧
          (HandleSigma1 env b toks s).eff.messagesSent
            = [(MsgType.sigma2Resume, env.sigma2ResumeBytes)]))
    ∧ (∀ (env : Env) (b : Bytes) (toks : List TLVElem) (s : Ctx),
        (HandleSigma2AndSendSigma3 env b toks s).err = none →
        (HandleSigma2AndSendSigma3 env b toks s).s.transcript
          = s.transcript ++ [b, env.sigma3Bytes] ∧
        (HandleSigma2AndSendSigma3 env b toks s).eff.messagesSent
          = [(MsgType.sigma3, env.sigma3Bytes)] ∧
        (HandleSigma2AndSendSigma3 env b toks s).s.mMessageDigest
          = sha256Digest (s.transcript ++ [b, env.sigma3Bytes]))
    ∧ (∀ (env : Env) (b : Bytes) (toks : List TLVElem) (s : Ctx),
        (HandleSigma3 env b toks s).err = none →
        (HandleSigma3 env b toks s).s.transcript = s.transcript ++ [b] ∧
        (HandleSigma3 env b toks s).s.mMessageDigest = sha256Digest (s.transcript ++ [b]))
    ∧ (∀ (env : Env) (rand : Bytes) (s : Ctx),
        (SendSigma2Resume env rand s).s.transcript = s.transcript)
    ∧ (∀ (env : Env) (toks : List TLVElem) (s : Ctx),
        (HandleSigma2Resume env toks s).s.transcript = s.transcript)
    ∧ (∀ (r : StatusReportM) (ex : Bool) (s : Ctx),
        (HandleStatusReport r ex s).s.transcript = s.transcript) := by
  refine ⟨SendSigma1_ok, HandleSigma1_ok, HandleSigma2AndSendSigma3_ok, HandleSigma3_ok_shape,
          SendSigma2Resume_transcript, ?_, HandleStatusReport_transcript⟩
  intro env toks s
  unfold HandleSigma2Resume
  rw [invalidParamExitWrap_s]
  exact HandleSigma2ResumeBody_transcript env toks s

/-- Witness for C2 at concrete successful runs of each operation. -/
theorem c2_witness :
    ((SendSigma1 happyEnv ctxFab).err = none →
      (SendSigma1 happyEnv ctxFab).s.transcript = ctxFab.transcript ++ [happyEnv.sigma1Bytes] ∧
      (SendSigma1 happyEnv ctxFab).eff.messagesSent = [(MsgType.sigma1, happyEnv.sigma1Bytes)]) ∧
    (SendSigma1 happyEnv ctxFab).err = none ∧
    ((HandleSigma1 happyEnv sigma1MsgC.bytes sigma1MsgC.toks ctx0).err = none →
      ((HandleSigma1 happyEnv sigma1MsgC.bytes sigma1MsgC.toks ctx0).s.transcript
          = ctx0.transcript ++ [sigma1MsgC.bytes, happyEnv.sigma2Bytes] ∧
        (HandleSigma1 happyEnv sigma1MsgC.bytes sigma1MsgC.toks ctx0).eff.messagesSent
          = [(MsgType.sigma2, happyEnv.sigma2Bytes)])
      ∨ ((HandleSigma1 happyEnv sigma1MsgC.bytes sigma1MsgC.toks ctx0).s.transcript
          = ctx0.transcript ++ [sigma1MsgC.bytes] ∧
        (HandleSigma1 happyEnv sigma1MsgC.bytes sigma1MsgC.toks ctx0).eff.messagesSent
          = [(MsgType.sigma2Resume, happyEnv.sigma2ResumeBytes)])) ∧
    (HandleSigma1 happyEnv sigma1MsgC.bytes sigma1MsgC.toks ctx0).err = none ∧
    ((HandleSigma2AndSendSigma3 happyEnv sigma2MsgC.bytes sigma2MsgC.toks ctxFab).err = none →
      (HandleSigma2AndSendSigma3 happyEnv sigma2MsgC.bytes sigma2MsgC.toks ctxFab).s.transcript
        = ctxFab.transcript ++ [sigma2MsgC.bytes, happyEnv.sigma3Bytes] ∧
      (HandleSigma2AndSendSigma3 happyEnv sigma2MsgC.bytes sigma2MsgC.toks ctxFab).eff.messagesSent
        = [(MsgType.sigma3, happyEnv.sigma3Bytes)] ∧
      (HandleSigma2AndSendSigma3 happyEnv sigma2MsgC.bytes sigma2MsgC.toks ctxFab).s.mMessageDigest
        = sha256Digest (ctxFab.transcript ++ [sigma2MsgC.bytes, happyEnv.sigma3Bytes])) ∧
    (HandleSigma2AndSendSigma3 happyEnv sigma2MsgC.bytes sigma2MsgC.toks ctxFab).err = none ∧
    ((HandleSigma3 happyEnv sigma3MsgC.bytes sigma3MsgC.toks ctxFab).err = none →
      (HandleSigma3 happyEnv sigma3MsgC.bytes sigma3MsgC.toks ctxFab).s.transcript
        = ctxFab.transcript ++ [sigma3MsgC.bytes] ∧
      (HandleSigma3 happyEnv sigma3MsgC.bytes sigma3MsgC.toks ctxFab).s.mMessageDigest
        = sha256Digest (ctxFab.transcript ++ [sigma3MsgC.bytes])) ∧
    (HandleSigma3 happyEnv sigma3MsgC.bytes sigma3MsgC.toks ctxFab).err = none ∧
    (SendSigma2Resume happyEnv (List.replicate 32 0) ctx0).s.transcript = ctx0.transcript ∧
    (HandleSigma2Resume happyEnv sigma2ResumeMsgC.toks ctx0).s.transcript = ctx0.transcript ∧
    (HandleStatusReport statusOkMsgC.report true ctx0).s.transcript = ctx0.transcript :=
  ⟨c2_transcript_once_per_message.1 happyEnv ctxFab, by decide,
   c2_transcript_once_per_message.2.1 happyEnv sigma1MsgC.bytes sigma1MsgC.toks ctx0, by decide,
   c2_transcript_once_per_message.2.2.1 happyEnv sigma2MsgC.bytes sigma2MsgC.toks ctxFab, by decide,
   c2_transcript_once_per_message.2.2.2.1 happyEnv sigma3MsgC.bytes sigma3MsgC.toks ctxFab, by decide,
   c2_transcript_once_per_message.2.2.2.2.1 happyEnv (List.replicate 32 0) ctx0,
   c2_transcript_once_per_message.2.2.2.2.2.1 happyEnv sigma2ResumeMsgC.toks ctx0,
   c2_transcript_once_per_message.2.2.2.2.2.2 statusOkMsgC.report true ctx0⟩

lemma omrDispatch_sigma1 (env : Env) (m : InboundMsg) (s : Ctx)
    (h1 : s.mState = CASEState.kInitialized) (h2 : m.msgType = MsgType.sigma1) :
    omrDispatch env m s = HandleSigma1 env m.bytes m.toks s := by
  unfold omrDispatch
  rw [h1, h2]

lemma omrDispatch_sigma2 (env : Env) (m : InboundMsg) (s : Ctx)
    (h1 : s.mState = CASEState.kSentSigma1) (h2 : m.msgType = MsgType.sigma2) :
    omrDispatch env m s = HandleSigma2AndSendSigma3 env m.bytes m.toks s := by
  unfold omrDispatch
  rw [h1, h2]

lemma omrDispatch_sigma2resume (env : Env) (m : InboundMsg) (s : Ctx)
    (h1 : s.mState = CASEState.kSentSigma1) (h2 : m.msgType = MsgType.sigma2Resume) :
    omrDispatch env m s = HandleSigma2Resume env m.toks s := by
  unfold omrDispatch
  rw [h1, h2]

lemma omrDispatch_sigma3 (env : Env) (m : InboundMsg) (s : Ctx)
    (h1 : s.mState = CASEState.kSentSigma2) (h2 : m.msgType = MsgType.sigma3) :
    omrDispatch env m s = HandleSigma3 env m.bytes m.toks s := by
  unfold omrDispatch
  rw [h1, h2]

lemma omrExit_handler_shape (r : HOut) (e : CHIPError) (S : List Nat)
    (herr : (omrExit r).err = some e)
    (hstat : r.eff.statusReports = S) (hdel : r.eff.delegateErrors = []) :
    (omrExit r).eff.statusReports = S ∧
    (omrExit r).eff.delegateErrors = [e] ∧
    (omrExit r).s.mState = CASEState.kInitialized ∧
    (omrExit r).s.mExchangeCtxt = none ∧
    (omrExit r).s.mCASESessionEstablished = false := by
  have h' : r.err = some e := by rw [omrExit_err] at herr; exact herr
  rw [omrExit_some r e h']
  simp [Effects.app, delegateErrEff, clearSession, hstat, hdel]

lemma OnMessageReceived_reduce (env : Env) (ec : Nat) (m : InboundMsg) (s : Ctx)
    (hex : s.mExchangeCtxt = none ∨ s.mExchangeCtxt = some ec) :
    (s.mExchangeCtxt = none ∧
      OnMessageReceived env (some ec) (some m) s
        = omrExit (omrDispatch env m { s with mExchangeCtxt := some ec })) ∨
    (s.mExchangeCtxt = some ec ∧
      OnMessageReceived env (some ec) (some m) s = omrExit (omrDispatch env m s)) := by
  rcases hex with h | h
  · left
    exact ⟨h, by simp [OnMessageReceived, h]⟩
  · right
    exact ⟨h, by simp [OnMessageReceived, h]⟩

/-- C4: whenever a Sigma message handler invoked through
`OnMessageReceived` detects a fault, exactly one Status Report is
transmitted to the peer — protocol code `NoSharedRoot` when the fault is
`KeyNotFound` (Sigma1's destination-id lookup), `InvalidParam` for every
other fault — and the session transitions to its failed terminal
condition, the exchange is cleared, and the delegate receives exactly one
`OnSessionEstablishmentError` call. -/
theorem c4_fault_status_report_mapping :
    (∀ (env : Env) (ec : Nat) (m : InboundMsg) (s : Ctx) (e : CHIPError),
      s.mState = CASEState.kInitialized → m.msgType = MsgType.sigma1 →
      (s.mExchangeCtxt = none ∨ s.mExchangeCtxt = some ec) →
      (OnMessageReceived env (some ec) (some m) s).err = some e →
      (OnMessageReceived env (some ec) (some m) s).eff.statusReports = [statusCodeFor e] ∧
      (OnMessageReceived env (some ec) (some m) s).eff.delegateErrors = [e] ∧
      (OnMessageReceived env (some ec) (some m) s).s.mState = CASEState.kInitialized ∧
      (OnMessageReceived env (some ec) (some m) s).s.mExchangeCtxt = none ∧
      (OnMessageReceived env (some ec) (some m) s).s.mCASESessionEstablished = false)
    ∧ (∀ (env : Env) (ec : Nat) (m : InboundMsg) (s : Ctx) (e : CHIPError),
      s.mState = CASEState.kSentSigma1 → m.msgType = MsgType.sigma2 →
      (s.mExchangeCtxt = none ∨ s.mExchangeCtxt = some ec) →
      (OnMessageReceived env (some ec) (some m) s).err = some e →
      (OnMessageReceived env (some ec) (some m) s).eff.statusReports = [kProtocolCodeInvalidParam] ∧
      (OnMessageReceived env (some ec) (some m) s).eff.delegateErrors = [e] ∧
      (OnMessageReceived env (some ec) (some m) s).s.mState = CASEState.kInitialized ∧
      (OnMessageReceived env (some ec) (some m) s).s.mExchangeCtxt = none ∧
      (OnMessageReceived env (some ec) (some m) s).s.mCASESessionEstablished = false)
    ∧ (∀ (env : Env) (ec : Nat) (m : InboundMsg) (s : Ctx) (e : CHIPError),
      s.mState = CASEState.kSentSigma1 → m.msgType = MsgType.sigma2Resume →
      (s.mExchangeCtxt = none ∨ s.mExchangeCtxt = some ec) →
      (OnMessageReceived env (some ec) (some m) s).err = some e →
      (OnMessageReceived env (some ec) (some m) s).eff.statusReports = [kProtocolCodeInvalidParam] ∧
      (OnMessageReceived env (some ec) (some m) s).eff.delegateErrors = [e] ∧
      (OnMessageReceived env (some ec) (some m) s).s.mState = CASEState.kInitialized ∧
      (OnMessageReceived env (some ec) (some m) s).s.mExchangeCtxt = none ∧
      (OnMessageReceived env (some ec) (some m) s).s.mCASESessionEstablished = false)
    ∧ (∀ (env : Env) (ec : Nat) (m : InboundMsg) (s : Ctx) (e : CHIPError),
      s.mState = CASEState.kSentSigma2 → m.msgType = MsgType.sigma3 →
      (s.mExchangeCtxt = none ∨ s.mExchangeCtxt = some ec) →
      (OnMessageReceived env (some ec) (some m) s).err = some e →
      (OnMessageReceived env (some ec) (some m) s).eff.statusReports = [kProtocolCodeInvalidParam] ∧
      (OnMessageReceived env (some ec) (some m) s).eff.delegateErrors = [e] ∧
      (OnMessageReceived env (some ec) (some m) s).s.mState = CASEState.kInitialized ∧
      (OnMessageReceived env (some ec) (some m) s).s.mExchangeCtxt = none ∧
      (OnMessageReceived env (some ec) (some m) s).s.mCASESessionEstablished = false) := by
  refine ⟨?_, ?_, ?_, ?_⟩
  all_goals intro env ec m s e hst hmt hex herr
  all_goals rcases OnMessageReceived_reduce env ec m s hex with ⟨hx, hred⟩ | ⟨hx, hred⟩
  all_goals
    first
    | (rw [hred, omrDispatch_sigma1 env m _ (by simpa using hst) hmt] at herr ⊢
       have herr' := herr
       rw [omrExit_err] at herr'
       have hsh := HandleSigma1_err_status env m.bytes m.toks _ e herr'
       exact omrExit_handler_shape _ e _ herr hsh.1 hsh.2)
    | (rw [hred, omrDispatch_sigma2 env m _ (by simpa using hst) hmt] at herr ⊢
       have herr' := herr
       rw [omrExit_err] at herr'
       have hsh := HandleSigma2AndSendSigma3_err_shape env m.bytes m.toks _ e herr'
       exact omrExit_handler_shape _ e _ herr hsh.1 hsh.2)
    | (rw [hred, omrDispatch_sigma2resume env m _ (by simpa using hst) hmt] at herr ⊢
       have herr' := herr
       rw [omrExit_err] at herr'
       have hsh := HandleSigma2Resume_err_shape env m.toks _ e herr'
       exact omrExit_handler_shape _ e _ herr hsh.1 hsh.2)
    | (rw [hred, omrDispatch_sigma3 env m _ (by simpa using hst) hmt] at herr ⊢
       have herr' := herr
       rw [omrExit_err] at herr'
       have hsh := HandleSigma3_err_shape env m.bytes m.toks _ e herr'
       exact omrExit_handler_shape _ e _ herr hsh.1 hsh.2)

/-- Environment in which no fabric matches the Sigma1 destination id. -/
def env4 : Env := { happyEnv with findDestFabric := fun _ _ => none }

/-- Malformed Sigma2 / Sigma2Resume / Sigma3 messages (empty element list). -/
def sigma2BadMsgC : InboundMsg := ⟨.sigma2, [8, 8], [], ⟨0, 0, 0⟩⟩

def sigma2rBadMsgC : InboundMsg := ⟨.sigma2Resume, [6, 6], [], ⟨0, 0, 0⟩⟩

def sigma3BadMsgC : InboundMsg := ⟨.sigma3, [7, 7], [], ⟨0, 0, 0⟩⟩

/-- Contexts waiting in `kSentSigma1` / `kSentSigma2`. -/
def ctxSent1 : Ctx := { ctx0 with mState := .kSentSigma1 }

def ctxSent2 : Ctx := { ctx0 with mState := .kSentSigma2 }

/-- Witness for C4: a destination-id lookup miss maps to `NoSharedRoot`,
and malformed Sigma2 / Sigma2Resume / Sigma3 messages map to
`InvalidParam`, each with one delegate error call and a cleared session. -/
theorem c4_witness :
    (OnMessageReceived env4 (some 5) (some sigma1MsgC) ctx0).err = some CHIPError.keyNotFound ∧
    ((OnMessageReceived env4 (some 5) (some sigma1MsgC) ctx0).eff.statusReports
        = [statusCodeFor CHIPError.keyNotFound] ∧
      (OnMessageReceived env4 (some 5) (some sigma1MsgC) ctx0).eff.delegateErrors
        = [CHIPError.keyNotFound] ∧
      (OnMessageReceived env4 (some 5) (some sigma1MsgC) ctx0).s.mState = CASEState.kInitialized ∧
      (OnMessageReceived env4 (some 5) (some sigma1MsgC) ctx0).s.mExchangeCtxt = none ∧
      (OnMessageReceived env4 (some 5) (some sigma1MsgC) ctx0).s.mCASESessionEstablished = false) ∧
    (OnMessageReceived happyEnv (some 5) (some sigma2BadMsgC) ctxSent1).err
      = some CHIPError.endOfTlv ∧
    ((OnMessageReceived happyEnv (some 5) (some sigma2BadMsgC) ctxSent1).eff.statusReports
        = [kProtocolCodeInvalidParam] ∧
      (OnMessageReceived happyEnv (some 5) (some sigma2BadMsgC) ctxSent1).eff.delegateErrors
        = [CHIPError.endOfTlv] ∧
      (OnMessageReceived happyEnv (some 5) (some sigma2BadMsgC) ctxSent1).s.mState
        = CASEState.kInitialized ∧
      (OnMessageReceived happyEnv (some 5) (some sigma2BadMsgC) ctxSent1).s.mExchangeCtxt = none ∧
      (OnMessageReceived happyEnv (some 5) (some sigma2BadMsgC) ctxSent1).s.mCASESessionEstablished
        = false) ∧
    ((OnMessageReceived happyEnv (some 5) (some sigma2rBadMsgC) ctxSent1).eff.statusReports
        = [kProtocolCodeInvalidParam] ∧
      (OnMessageReceived happyEnv (some 5) (some sigma2rBadMsgC) ctxSent1).eff.delegateErrors
        = [CHIPError.endOfTlv] ∧
      (OnMessageReceived happyEnv (some 5) (some sigma2rBadMsgC) ctxSent1).s.mState
        = CASEState.kInitialized ∧
      (OnMessageReceived happyEnv (some 5) (some sigma2rBadMsgC) ctxSent1).s.mExchangeCtxt = none ∧
      (OnMessageReceived happyEnv (some 5) (some sigma2rBadMsgC) ctxSent1).s.mCASESessionEstablished
        = false) ∧
    ((OnMessageReceived happyEnv (some 5) (some sigma3BadMsgC) ctxSent2).eff.statusReports
        = [kProtocolCodeInvalidParam] ∧
      (OnMessageReceived happyEnv (some 5) (some sigma3BadMsgC) ctxSent2).eff.delegateErrors
        = [CHIPError.endOfTlv] ∧
      (OnMessageReceived happyEnv (some 5) (some sigma3BadMsgC) ctxSent2).s.mState
        = CASEState.kInitialized ∧
      (OnMessageReceived happyEnv (some 5) (some sigma3BadMsgC) ctxSent2).s.mExchangeCtxt = none ∧
      (OnMessageReceived happyEnv (some 5) (some sigma3BadMsgC) ctxSent2).s.mCASESessionEstablished
        = false) :=
  ⟨by decide,
   c4_fault_status_report_mapping.1 env4 5 sigma1MsgC ctx0 CHIPError.keyNotFound rfl rfl
     (Or.inl rfl) (by decide),
   by decide,
   c4_fault_status_report_mapping.2.1 happyEnv 5 sigma2BadMsgC ctxSent1 CHIPError.endOfTlv rfl rfl
     (Or.inl rfl) (by decide),
   c4_fault_status_report_mapping.2.2.1 happyEnv 5 sigma2rBadMsgC ctxSent1 CHIPError.endOfTlv rfl
     rfl (Or.inl rfl) (by decide),
   c4_fault_status_report_mapping.2.2.2 happyEnv 5 sigma3BadMsgC ctxSent2 CHIPError.endOfTlv rfl
     rfl (Or.inl rfl) (by decide)⟩
